import Mathlib

/-!
# WorldGuessr map submission: `pages/api/map/action.js`

A shallow embedding of the request handler of `pages/api/map/action.js`
(create and delete of user maps) and of its two helpers
`latLngToCartesian` and `calculateDistance`, followed by theorems about
the validation order, the reserved-slug check, the location-count bounds
and the `maxDist` estimate.

Conventions of the embedding

* A JavaScript string is the list of its UTF-16 code units (`JsString`), so
  `.length` is `List.length` and `===` on strings is equality of lists.
* A value of the request body is a `JsVal` (what `JSON.parse` can produce,
  plus `undefined` for an absent key).
* Numbers of the geometry live in an ordered field `α`; the functions of
  `Math` are passed in a `JsMath α`, so that the definitions run on `ℚ` and
  the theorems about distances are stated on `ℝ` with `Real.cos`,
  `Real.sin`, `Real.sqrt`.
* Modules that are imported by the handler but are not part of the sources
  (`mapConst`, `parseMapData`, `generateSlug`, `countries.json`,
  `officialCountryMaps.json`, `User`) are fields of an `Env`.
* An uncaught exception of the handler is the outcome `Outcome.throws`.
-/

namespace WorldGuessr

set_option linter.unusedSectionVars false

/-! ## JavaScript values -/

/-- A JavaScript string: its UTF-16 code units. -/
abbrev JsString := List Nat

/-- The code units of a Lean string literal (used for the literals of the
source, which are ASCII). -/
def js (s : String) : JsString :=
  s.toList.map Char.toNat

/-- A value found in `req.body`. `num` carries the value of a finite
double. -/
inductive JsVal where
  | undefined
  | null
  | bool (b : Bool)
  | num (x : ℚ)
  | str (s : JsString)
  | arr (items : List JsVal)
  | obj (props : List (JsString × JsVal))

/-- JavaScript `ToBoolean`: `!v` is `!(truthy v)`. -/
def truthy : JsVal → Bool
  | .undefined => false
  | .null => false
  | .bool b => b
  | .num x => x != 0
  | .str s => !s.isEmpty
  | .arr _ => true
  | .obj _ => true

/-- Strict equality `v === lit` against a string literal. -/
def strictEqStr (v : JsVal) (lit : JsString) : Bool :=
  match v with
  | .str s => s == lit
  | _ => false

/-- Code units removed by `String.prototype.trim`: ECMAScript WhiteSpace and
LineTerminator. -/
def isWhiteSpace (c : Nat) : Bool :=
  c == 9 || c == 10 || c == 11 || c == 12 || c == 13 || c == 32 || c == 160 ||
  c == 5760 || (8192 ≤ c && c ≤ 8202) || c == 8232 || c == 8233 || c == 8239 ||
  c == 8287 || c == 12288 || c == 65279

/-- The method `String.prototype.trim` on a string. -/
def trim (s : JsString) : JsString :=
  ((s.dropWhile isWhiteSpace).reverse.dropWhile isWhiteSpace).reverse

/-- The call `v.trim()` on a body value: a string has the method, every
other truthy JSON value does not and the call throws a `TypeError`
(`none`). -/
def callTrim : JsVal → Option JsString
  | .str s => some (trim s)
  | _ => none

/-! ## Geometry: `latLngToCartesian`, `calculateDistance` -/

/-- The members of `Math` the file uses. -/
structure JsMath (α : Type) where
  PI : α
  cos : α → α
  sin : α → α
  sqrt : α → α

/-- An element `{ lat, lng }` of the parsed location list. -/
structure GeoPoint (α : Type) where
  lat : α
  lng : α

/-- The object `{ x, y, z }` returned by `latLngToCartesian`. -/
structure Cartesian (α : Type) where
  x : α
  y : α
  z : α

variable {α : Type} [LinearOrderedField α]

/-- The function `latLngToCartesian(lat, lng)`. -/
def latLngToCartesian (M : JsMath α) (lat lng : α) : Cartesian α :=
  let R : α := 6371
  let phi := (lat * M.PI) / 180
  let theta := (lng * M.PI) / 180
  let x := R * M.cos phi * M.cos theta
  let y := R * M.cos phi * M.sin theta
  let z := R * M.sin phi
  { x := x, y := y, z := z }

/-- The function `calculateDistance(cart1, cart2)`. -/
def calculateDistance (M : JsMath α) (cart1 cart2 : Cartesian α) : α :=
  let dx := cart1.x - cart2.x
  let dy := cart1.y - cart2.y
  let dz := cart1.z - cart2.z
  M.sqrt (dx * dx + dy * dy + dz * dz)

/-- The comparator `(a, b) => a.x - b.x` passed to `sort`. -/
def compareX (a b : Cartesian α) : α :=
  a.x - b.x

/-- The order induced by the comparator: `a` may stay in front of `b` when
the comparator is not positive. -/
def byX (a b : Cartesian α) : Prop :=
  compareX a b ≤ 0

instance byX.decidable : DecidableRel (byX : Cartesian α → Cartesian α → Prop) :=
  fun a b => inferInstanceAs (Decidable (compareX a b ≤ 0))

instance byX.total : IsTotal (Cartesian α) byX :=
  ⟨fun a b => by
    unfold byX compareX
    rcases le_total a.x b.x with h | h
    · exact Or.inl (sub_nonpos.mpr h)
    · exact Or.inr (sub_nonpos.mpr h)⟩

instance byX.trans : IsTrans (Cartesian α) byX :=
  ⟨fun a b c hab hbc => by
    unfold byX compareX at *
    exact sub_nonpos.mpr (le_trans (sub_nonpos.mp hab) (sub_nonpos.mp hbc))⟩

/-- The call `cartesianLocations.sort((a, b) => a.x - b.x)`:
`Array.prototype.sort` is a stable sort, and the stable sort of a list by a
total preorder is unique; insertion of each element in front of the first
element it does not exceed is one such sort. -/
def sortByX (l : List (Cartesian α)) : List (Cartesian α) :=
  l.insertionSort byX

/-- Lines 92-99 of the handler: project every location, sort by `x`, and
take the distance between element `0` and element `length - 1`. On an empty
array both elements are `undefined` and `calculateDistance` throws a
`TypeError` on `cart1.x` (`none`). -/
def maxDist (M : JsMath α) (locationsData : List (GeoPoint α)) : Option α :=
  let cartesianLocations := locationsData.map (fun loc => latLngToCartesian M loc.lat loc.lng)
  let sorted := sortByX cartesianLocations
  match sorted.head?, sorted.getLast? with
  | some first, some last => some (calculateDistance M first last)
  | _, _ => none

/-! ## Collaborators of the handler -/

/-- The module `mapConst`: the numeric bounds of the validation policy. The
module is not part of the sources, its values are left open. -/
structure MapConst where
  MIN_NAME_LENGTH : Nat
  MAX_NAME_LENGTH : Nat
  MIN_SHORT_DESCRIPTION_LENGTH : Nat
  MAX_SHORT_DESCRIPTION_LENGTH : Nat
  MIN_LONG_DESCRIPTION_LENGTH : Nat
  MAX_LONG_DESCRIPTION_LENGTH : Nat
  MIN_LOCATIONS : Nat
  MAX_LOCATIONS : Nat

/-- A document of the `User` model, as far as the handler reads it. -/
structure User where
  _id : JsString

/-- A value of `officialCountryMaps.json`, as far as the handler reads it. -/
structure OfficialMap where
  slug : JsString

/-- The object literal passed to `Map.create`. -/
structure MapRecord (α : Type) where
  slug : JsString
  name : JsString
  created_by : JsString
  data : List (GeoPoint α)
  description_short : JsString
  description_long : JsString
  maxDist : α

/-- A stored document of the `Map` model. -/
structure MapDoc (α : Type) extends MapRecord α where
  _id : JsString

/-- The collection behind the `Map` model. -/
abbrev Store (α : Type) := List (MapDoc α)

/-- What the handler imports or calls and the sources do not contain.
`parseMapData` returns `none` for `null` or `undefined`; `findOne secret` is
`User.findOne(\x7b secret: secret \x7d)`; `toUpperCase` is
`String.prototype.toUpperCase`; `newId` is the `_id` the store gives to a
new document. -/
structure Env (α : Type) where
  mapConst : MapConst
  countries : List JsString
  officialCountryMaps : List OfficialMap
  parseMapData : JsVal → Option (List (GeoPoint α))
  generateSlug : JsString → JsString
  toUpperCase : JsString → JsString
  findOne : JsVal → Option User
  newId : Store α → JsString

/-- Modelled from the spec: the map-store collaborator `create(mapRecord)`
(the `Map` model is not part of the sources). The record is stored as a new
document, which is returned. -/
def Map.create (newId : Store α → JsString) (r : MapRecord α) (store : Store α) :
    MapDoc α × Store α :=
  let doc : MapDoc α := { toMapRecord := r, _id := newId store }
  (doc, store ++ [doc])

/-- Modelled from the spec: the map-store collaborator `findById(id)` (the
`Map` model is not part of the sources): the stored document with that id,
if there is one. -/
def Map.findById (mapId : JsVal) (store : Store α) : Option (MapDoc α) :=
  match mapId with
  | .str s => store.find? (fun d => d._id == s)
  | _ => none

/-- Modelled from the spec: the map-store collaborator `remove(map)` (the
`Map` model is not part of the sources): the document is no longer in the
collection. -/
def MapDoc.remove (map : MapDoc α) (store : Store α) : Store α :=
  store.filter (fun d => d._id != map._id)

/-! ## The handler -/

/-- The destructured `req.body`; an absent key is `undefined`. -/
structure Body where
  action : JsVal
  secret : JsVal
  name : JsVal
  data : JsVal
  description_short : JsVal
  description_long : JsVal
  mapId : JsVal

/-- The request, as far as the handler reads it. -/
structure Request where
  method : String
  body : Body

/-- What a call of the handler ends in: `res.status(status).json(...)` with
the `message` and, on creation, the `map`; or an uncaught exception. -/
inductive Outcome (α : Type) where
  | json (status : Nat) (message : String) (map : Option (MapDoc α))
  | throws

/-- Line 51. -/
def MissingFields : Outcome α :=
  .json 400 "Missing name, data, description_short, or description_long" none

/-- Line 60. -/
def InvalidName (c : MapConst) : Outcome α :=
  .json 400 ("Name must be between " ++ toString c.MIN_NAME_LENGTH ++ " and " ++
    toString c.MAX_NAME_LENGTH ++ " characters") none

/-- Line 65. -/
def InvalidShortDescription (c : MapConst) : Outcome α :=
  .json 400 ("Short description must be between " ++
    toString c.MIN_SHORT_DESCRIPTION_LENGTH ++ " and " ++
    toString c.MAX_SHORT_DESCRIPTION_LENGTH ++ " characters") none

/-- Line 70. -/
def InvalidLongDescription (c : MapConst) : Outcome α :=
  .json 400 ("Long description must be between " ++
    toString c.MIN_LONG_DESCRIPTION_LENGTH ++ " and " ++
    toString c.MAX_LONG_DESCRIPTION_LENGTH ++ " characters") none

/-- Line 75. -/
def DuplicateDescriptions : Outcome α :=
  .json 400 "Short and long descriptions must be different" none

/-- Line 80. -/
def NameCollision : Outcome α :=
  .json 400 "Please choose a different name" none

/-- Line 86, with `got` the value of `locationsData?.length ?? 0`. -/
def InsufficientLocations (c : MapConst) (got : Nat) : Outcome α :=
  .json 400 ("Need at least " ++ toString c.MIN_LOCATIONS ++ " valid locations (got " ++
    toString got ++ ")") none

/-- Line 89. -/
def TooManyLocations (c : MapConst) : Outcome α :=
  .json 400 ("To make a map with more than " ++ toString c.MAX_LOCATIONS ++
    " locations, please contact us at gautam@worldguessr.com") none

/-- The condition of line 79: the slug is `all`, or its upper-case form is an
entry of `countries`, or some official map has it as slug. -/
def slugCollides (E : Env α) (slug : JsString) : Bool :=
  slug == js "all" || E.countries.contains (E.toUpperCase slug) ||
    (E.officialCountryMaps.find? (fun map => map.slug == slug)).isSome

/-- Lines 49-113, the branch `action === 'create'`. After the three calls
of `trim` the three values are strings, so the tests `typeof ... !== 'string'`
of lines 59, 64 and 69 are false and only the length tests remain. -/
def handlerCreate (M : JsMath α) (E : Env α) (user : User) (b : Body) (store : Store α) :
    Outcome α × Store α :=
  if !truthy b.name || !truthy b.data || !truthy b.description_short ||
      !truthy b.description_long then
    (MissingFields, store)
  else
    match callTrim b.name with
    | none => (.throws, store)
    | some name =>
    match callTrim b.description_short with
    | none => (.throws, store)
    | some description_short =>
    match callTrim b.description_long with
    | none => (.throws, store)
    | some description_long =>
    if name.length < E.mapConst.MIN_NAME_LENGTH || name.length > E.mapConst.MAX_NAME_LENGTH then
      (InvalidName E.mapConst, store)
    else if description_short.length < E.mapConst.MIN_SHORT_DESCRIPTION_LENGTH ||
        description_short.length > E.mapConst.MAX_SHORT_DESCRIPTION_LENGTH then
      (InvalidShortDescription E.mapConst, store)
    else if description_long.length < E.mapConst.MIN_LONG_DESCRIPTION_LENGTH ||
        description_long.length > E.mapConst.MAX_LONG_DESCRIPTION_LENGTH then
      (InvalidLongDescription E.mapConst, store)
    else if description_short == description_long then
      (DuplicateDescriptions, store)
    else
      let slug := E.generateSlug name
      if slugCollides E slug then
        (NameCollision, store)
      else
        match E.parseMapData b.data with
        | none => (InsufficientLocations E.mapConst 0, store)
        | some locationsData =>
        if locationsData.length < E.mapConst.MIN_LOCATIONS then
          (InsufficientLocations E.mapConst locationsData.length, store)
        else if locationsData.length > E.mapConst.MAX_LOCATIONS then
          (TooManyLocations E.mapConst, store)
        else
          match maxDist M locationsData with
          | none => (.throws, store)
          | some maxDist =>
            let created := Map.create E.newId
              { slug := slug
                name := name
                created_by := user._id
                data := locationsData
                description_short := description_short
                description_long := description_long
                maxDist := maxDist } store
            (.json 200 "Map created" (some created.1), created.2)

/-- Lines 115-135, the branch `action === 'delete'`. -/
def handlerDelete (user : User) (b : Body) (store : Store α) : Outcome α × Store α :=
  if !truthy b.mapId then
    (.json 400 "Missing mapId" none, store)
  else
    match Map.findById b.mapId store with
    | none => (.json 404 "Map not found" none, store)
    | some map =>
      if map.created_by != user._id then
        (.json 403 "You are not authorized to delete this map" none, store)
      else
        (.json 200 "Map deleted" none, map.remove store)

/-- The exported `handler(req, res)`: the outcome of the call and the store
after it. -/
def handler (M : JsMath α) (E : Env α) (req : Request) (store : Store α) :
    Outcome α × Store α :=
  if req.method != "POST" then
    (.json 405 "Method not allowed" none, store)
  else
    let b := req.body
    if !truthy b.action || !truthy b.secret then
      (.json 400 "Missing action or secret" none, store)
    else
      match E.findOne b.secret with
      | none => (.json 404 "User not found" none, store)
      | some user =>
        if strictEqStr b.action (js "create") then
          handlerCreate M E user b store
        else if strictEqStr b.action (js "delete") then
          handlerDelete user b store
        else
          (.json 400 "Invalid action" none, store)

/-! ## Vocabulary of the statements -/

/-- The request is a create request from a known user: it passes lines 32-46
and takes the branch of line 49. -/
def CreateBy (E : Env α) (req : Request) (user : User) : Prop :=
  req.method = "POST" ∧ truthy req.body.secret = true ∧
    E.findOne req.body.secret = some user ∧ req.body.action = .str (js "create")

/-- The request is a delete request from a known user: it passes lines 32-46
and takes the branch of line 116. -/
def DeleteBy (E : Env α) (req : Request) (user : User) : Prop :=
  req.method = "POST" ∧ truthy req.body.secret = true ∧
    E.findOne req.body.secret = some user ∧ req.body.action = .str (js "delete")

/-- Check 1: `name`, `data`, `description_short` and `description_long` are
all present, that is truthy. -/
def AllPresent (b : Body) : Prop :=
  truthy b.name = true ∧ truthy b.data = true ∧ truthy b.description_short = true ∧
    truthy b.description_long = true

/-- The three text fields of the body are the strings `name`, `short` and
`long`. -/
def TextFields (b : Body) (name short long : JsString) : Prop :=
  b.name = .str name ∧ b.description_short = .str short ∧ b.description_long = .str long

/-- Check 3: the length of the trimmed name is within its bounds. -/
def NameInRange (c : MapConst) (name : JsString) : Prop :=
  c.MIN_NAME_LENGTH ≤ (trim name).length ∧ (trim name).length ≤ c.MAX_NAME_LENGTH

/-- Check 4: the length of the trimmed short description is within its
bounds. -/
def ShortInRange (c : MapConst) (short : JsString) : Prop :=
  c.MIN_SHORT_DESCRIPTION_LENGTH ≤ (trim short).length ∧
    (trim short).length ≤ c.MAX_SHORT_DESCRIPTION_LENGTH

/-- Check 5: the length of the trimmed long description is within its
bounds. -/
def LongInRange (c : MapConst) (long : JsString) : Prop :=
  c.MIN_LONG_DESCRIPTION_LENGTH ≤ (trim long).length ∧
    (trim long).length ≤ c.MAX_LONG_DESCRIPTION_LENGTH

instance NameInRange.decidable (c : MapConst) (name : JsString) : Decidable (NameInRange c name) :=
  inferInstanceAs (Decidable (_ ∧ _))

instance ShortInRange.decidable (c : MapConst) (short : JsString) :
    Decidable (ShortInRange c short) :=
  inferInstanceAs (Decidable (_ ∧ _))

instance LongInRange.decidable (c : MapConst) (long : JsString) :
    Decidable (LongInRange c long) :=
  inferInstanceAs (Decidable (_ ∧ _))

instance AllPresent.decidable (b : Body) : Decidable (AllPresent b) :=
  inferInstanceAs (Decidable (_ ∧ _))

/-- Checks 1 to 6 pass: all fields present, the three text fields are the
given strings, their trimmed lengths are within bounds and the trimmed
descriptions differ. -/
def PassesTextChecks (c : MapConst) (b : Body) (name short long : JsString) : Prop :=
  AllPresent b ∧ TextFields b name short long ∧ NameInRange c name ∧ ShortInRange c short ∧
    LongInRange c long ∧ trim short ≠ trim long

/-- The reserved names in the words of the specification: the slug is `all`,
or equals an entry of the country-code list when letter case is ignored
(both have the same upper-case form), or is the slug of an official country
map. -/
def Reserved (E : Env α) (slug : JsString) : Prop :=
  slug = js "all" ∨ (∃ c ∈ E.countries, E.toUpperCase slug = E.toUpperCase c) ∨
    ∃ m ∈ E.officialCountryMaps, m.slug = slug

/-- The entries of `countries.json` are upper-case, as ISO country codes are:
`toUpperCase` leaves each of them as it is. The file is not part of the
sources. -/
def UpperCaseCodes (E : Env α) : Prop :=
  ∀ c ∈ E.countries, E.toUpperCase c = c

instance UpperCaseCodes.decidable (E : Env α) : Decidable (UpperCaseCodes E) :=
  inferInstanceAs (Decidable (∀ c ∈ E.countries, E.toUpperCase c = c))

/-- The outcome is one of the eight validation errors of the create path. -/
def IsValidationError (c : MapConst) (o : Outcome α) : Prop :=
  o = MissingFields ∨ o = InvalidName c ∨ o = InvalidShortDescription c ∨
    o = InvalidLongDescription c ∨ o = DuplicateDescriptions ∨ o = NameCollision ∨
    (∃ got : Nat, o = InsufficientLocations c got) ∨ o = TooManyLocations c

/-- A location within the ranges of the data model: latitude in `[-90, 90]`,
longitude in `[-180, 180]`. -/
def ValidGeo (p : GeoPoint α) : Prop :=
  -90 ≤ p.lat ∧ p.lat ≤ 90 ∧ -180 ≤ p.lng ∧ p.lng ≤ 180

/-- The distances between any two points of a list, in both orders and with
the distance of each point to itself. -/
def pairwiseDistances (M : JsMath α) (pts : List (Cartesian α)) : List α :=
  pts.flatMap (fun a => pts.map (fun b => calculateDistance M a b))

/-- The diameter of a point set in the words of the glossary: the maximum
distance between any two points of the set (`0` for the empty set). -/
def maxPairwise (M : JsMath α) (pts : List (Cartesian α)) : α :=
  (pairwiseDistances M pts).foldr max 0

/-! ## Example data -/

/-- ASCII letters to upper case, the other code units unchanged: what
`toUpperCase` does on ASCII strings. -/
def asciiUpper (s : JsString) : JsString :=
  s.map (fun c => if 97 ≤ c ∧ c ≤ 122 then c - 32 else c)

/-- ASCII letters to lower case and spaces to hyphens: a stand-in for
`generateSlug` in the examples. -/
def asciiSlug (s : JsString) : JsString :=
  s.map (fun c => if 65 ≤ c ∧ c ≤ 90 then c + 32 else if c = 32 then 45 else c)

/-- An example policy. -/
def exampleConst : MapConst :=
  { MIN_NAME_LENGTH := 3
    MAX_NAME_LENGTH := 10
    MIN_SHORT_DESCRIPTION_LENGTH := 4
    MAX_SHORT_DESCRIPTION_LENGTH := 8
    MIN_LONG_DESCRIPTION_LENGTH := 6
    MAX_LONG_DESCRIPTION_LENGTH := 12
    MIN_LOCATIONS := 2
    MAX_LOCATIONS := 3 }

/-- The example policy with maps of a single location allowed. -/
def onePointConst : MapConst :=
  { exampleConst with MIN_LOCATIONS := 1 }

/-- The example policy with maps of no location allowed. -/
def emptyMapConst : MapConst :=
  { exampleConst with MIN_LOCATIONS := 0 }

/-- The example policy with a minimum name length above the maximum. -/
def invertedConst : MapConst :=
  { exampleConst with MIN_NAME_LENGTH := 11 }

/-- The example policy with names of two code units allowed. -/
def shortNameConst : MapConst :=
  { exampleConst with MIN_NAME_LENGTH := 2 }

/-- An example environment with the policy `c`, whose parser returns
`parsed` on every input and whose only user has the secret `key`. -/
def exampleEnv (c : MapConst) (parsed : Option (List (GeoPoint α))) : Env α :=
  { mapConst := c
    countries := [js "FR", js "US"]
    officialCountryMaps := [{ slug := js "france" }]
    parseMapData := fun _ => parsed
    generateSlug := asciiSlug
    toUpperCase := asciiUpper
    findOne := fun secret => if strictEqStr secret (js "key") then some { _id := js "u1" } else none
    newId := fun store => js "m" ++ [48 + store.length] }

/-- An example create request with the secret `key`. -/
def exampleCreate (name data short long : JsVal) : Request :=
  { method := "POST"
    body :=
      { action := .str (js "create")
        secret := .str (js "key")
        name := name
        data := data
        description_short := short
        description_long := long
        mapId := .undefined } }

/-- The document the example environment stores first for the name `abc` and
the descriptions `short` and `long text`, with the locations `data` and the
estimate `d`. -/
def exampleDoc (data : List (GeoPoint α)) (d : α) : MapDoc α :=
  { slug := js "abc"
    name := js "abc"
    created_by := js "u1"
    data := data
    description_short := js "short"
    description_long := js "long text"
    maxDist := d
    _id := js "m0" }

/-- An example delete request with the secret `key`. -/
def exampleDelete (mapId : JsVal) : Request :=
  { method := "POST"
    body :=
      { action := .str (js "delete")
        secret := .str (js "key")
        name := .undefined
        data := .undefined
        description_short := .undefined
        description_long := .undefined
        mapId := mapId } }

/-- An example store: the map `m0` of the example user and the map `m1` of
another user. -/
def exampleStore : Store α :=
  [exampleDoc [] 0, { exampleDoc [] 0 with _id := js "m1", created_by := js "u2" }]

/-- The user of the example environment. -/
def exampleUser : User :=
  { _id := js "u1" }

/-- A list of `n` locations on the equator, at longitudes `0, 1, ...`. -/
def equator (n : Nat) : List (GeoPoint α) :=
  (List.range n).map (fun (i : Nat) => ({ lat := 0, lng := (i : α) } : GeoPoint α))

/-- Three locations whose projections share `x = 0` and differ in `y` or
`z`: `(0, 90)`, `(0, -90)` and the north pole. -/
def sharedX : List (GeoPoint α) :=
  [{ lat := 0, lng := 90 }, { lat := 0, lng := -90 }, { lat := 90, lng := 0 }]

/-- The locations of `sharedX` with the last two exchanged. -/
def sharedXSwapped : List (GeoPoint α) :=
  [{ lat := 0, lng := 90 }, { lat := 90, lng := 0 }, { lat := 0, lng := -90 }]

/-- Three locations on the equator, at longitudes `90`, `60` and `-60`: the
first has the smallest `x`, the other two share the largest. -/
def tieAtMax : List (GeoPoint α) :=
  [{ lat := 0, lng := 90 }, { lat := 0, lng := 60 }, { lat := 0, lng := -60 }]

/-- Two locations on the equator, at longitudes `0` and `180`. -/
def antipodes : List (GeoPoint α) :=
  [{ lat := 0, lng := 0 }, { lat := 0, lng := 180 }]

/-- The projections of a location list (line 93). -/
def project (M : JsMath α) (locationsData : List (GeoPoint α)) : List (Cartesian α) :=
  locationsData.map (fun loc => latLngToCartesian M loc.lat loc.lng)

/-! ## Theorems -/

theorem handler_create (M : JsMath α) (E : Env α) (req : Request) (store : Store α)
    (user : User) (h : CreateBy E req user) :
    handler M E req store = handlerCreate M E user req.body store := by
  obtain ⟨hm, hs, hu, ha⟩ := h
  have hact : truthy req.body.action = true := by rw [ha]; rfl
  have hc : strictEqStr req.body.action (js "create") = true := by
    rw [ha]; simp [strictEqStr]
  unfold handler
  simp [hm, hs, hu, hact, hc]

theorem handlerCreate_missing (M : JsMath α) (E : Env α) (user : User) (b : Body)
    (store : Store α) (h : ¬ AllPresent b) :
    handlerCreate M E user b store = (MissingFields, store) := by
  unfold handlerCreate
  rw [if_pos]
  unfold AllPresent at h
  revert h
  cases truthy b.name <;> cases truthy b.data <;> cases truthy b.description_short <;>
    cases truthy b.description_long <;> simp

/-- What remains of the create branch once the four fields are present and the
three text fields are strings: the checks of lines 59-90 on the trimmed
strings, then the creation. -/
theorem handlerCreate_text (M : JsMath α) (E : Env α) (user : User) (b : Body)
    (store : Store α) (name short long : JsString) (hp : AllPresent b)
    (ht : TextFields b name short long) :
    handlerCreate M E user b store =
      if ¬ NameInRange E.mapConst name then (InvalidName E.mapConst, store)
      else if ¬ ShortInRange E.mapConst short then (InvalidShortDescription E.mapConst, store)
      else if ¬ LongInRange E.mapConst long then (InvalidLongDescription E.mapConst, store)
      else if trim short = trim long then (DuplicateDescriptions, store)
      else if slugCollides E (E.generateSlug (trim name)) = true then (NameCollision, store)
      else
        match E.parseMapData b.data with
        | none => (InsufficientLocations E.mapConst 0, store)
        | some locationsData =>
          if locationsData.length < E.mapConst.MIN_LOCATIONS then
            (InsufficientLocations E.mapConst locationsData.length, store)
          else if locationsData.length > E.mapConst.MAX_LOCATIONS then
            (TooManyLocations E.mapConst, store)
          else
            match maxDist M locationsData with
            | none => (.throws, store)
            | some d =>
              ((Outcome.json 200 "Map created" (some (Map.create E.newId
                  { slug := E.generateSlug (trim name)
                    name := trim name
                    created_by := user._id
                    data := locationsData
                    description_short := trim short
                    description_long := trim long
                    maxDist := d } store).1)),
                (Map.create E.newId
                  { slug := E.generateSlug (trim name)
                    name := trim name
                    created_by := user._id
                    data := locationsData
                    description_short := trim short
                    description_long := trim long
                    maxDist := d } store).2) := by
  obtain ⟨h1, h2, h3, h4⟩ := hp
  obtain ⟨hn, hs, hl⟩ := ht
  unfold handlerCreate
  simp only [h1, h2, h3, h4, Bool.not_true, Bool.or_self, Bool.false_eq_true, if_false]
  simp only [hn, hs, hl, callTrim, NameInRange, ShortInRange, LongInRange]
  by_cases c1 : E.mapConst.MIN_NAME_LENGTH ≤ (trim name).length ∧
      (trim name).length ≤ E.mapConst.MAX_NAME_LENGTH
  swap
  · rw [if_pos, if_pos c1]
    simp only [Bool.or_eq_true, decide_eq_true_eq]
    omega
  rw [if_neg, if_neg (not_not.mpr c1)]
  swap
  · simp only [Bool.or_eq_true, decide_eq_true_eq]
    omega
  by_cases c2 : E.mapConst.MIN_SHORT_DESCRIPTION_LENGTH ≤ (trim short).length ∧
      (trim short).length ≤ E.mapConst.MAX_SHORT_DESCRIPTION_LENGTH
  swap
  · rw [if_pos, if_pos c2]
    simp only [Bool.or_eq_true, decide_eq_true_eq]
    omega
  rw [if_neg, if_neg (not_not.mpr c2)]
  swap
  · simp only [Bool.or_eq_true, decide_eq_true_eq]
    omega
  by_cases c3 : E.mapConst.MIN_LONG_DESCRIPTION_LENGTH ≤ (trim long).length ∧
      (trim long).length ≤ E.mapConst.MAX_LONG_DESCRIPTION_LENGTH
  swap
  · rw [if_pos, if_pos c3]
    simp only [Bool.or_eq_true, decide_eq_true_eq]
    omega
  rw [if_neg, if_neg (not_not.mpr c3)]
  swap
  · simp only [Bool.or_eq_true, decide_eq_true_eq]
    omega
  simp only [beq_iff_eq]

/-- The order of the checks when the three text fields are strings: a create
request from a known user gets the error of the first failing check, in the
order MissingFields, InvalidName, InvalidShortDescription,
InvalidLongDescription, DuplicateDescriptions, NameCollision,
InsufficientLocations, TooManyLocations, and the store is left as it was.
Nothing is said here about a present field that is not a string. -/
theorem create_reports_first_failing_check (M : JsMath α) (E : Env α) (req : Request)
    (store : Store α) (user : User) (h : CreateBy E req user) :
    (¬ AllPresent req.body → handler M E req store = (MissingFields, store)) ∧
    ∀ name short long : JsString, AllPresent req.body → TextFields req.body name short long →
      (¬ NameInRange E.mapConst name →
        handler M E req store = (InvalidName E.mapConst, store)) ∧
      (NameInRange E.mapConst name → ¬ ShortInRange E.mapConst short →
        handler M E req store = (InvalidShortDescription E.mapConst, store)) ∧
      (NameInRange E.mapConst name → ShortInRange E.mapConst short →
        ¬ LongInRange E.mapConst long →
        handler M E req store = (InvalidLongDescription E.mapConst, store)) ∧
      (NameInRange E.mapConst name → ShortInRange E.mapConst short →
        LongInRange E.mapConst long → trim short = trim long →
        handler M E req store = (DuplicateDescriptions, store)) ∧
      (NameInRange E.mapConst name → ShortInRange E.mapConst short →
        LongInRange E.mapConst long → trim short ≠ trim long →
        slugCollides E (E.generateSlug (trim name)) = true →
        handler M E req store = (NameCollision, store)) ∧
      (NameInRange E.mapConst name → ShortInRange E.mapConst short →
        LongInRange E.mapConst long → trim short ≠ trim long →
        slugCollides E (E.generateSlug (trim name)) = false →
        E.parseMapData req.body.data = none →
        handler M E req store = (InsufficientLocations E.mapConst 0, store)) ∧
      (NameInRange E.mapConst name → ShortInRange E.mapConst short →
        LongInRange E.mapConst long → trim short ≠ trim long →
        slugCollides E (E.generateSlug (trim name)) = false →
        ∀ locationsData, E.parseMapData req.body.data = some locationsData →
        locationsData.length < E.mapConst.MIN_LOCATIONS →
        handler M E req store =
          (InsufficientLocations E.mapConst locationsData.length, store)) ∧
      (NameInRange E.mapConst name → ShortInRange E.mapConst short →
        LongInRange E.mapConst long → trim short ≠ trim long →
        slugCollides E (E.generateSlug (trim name)) = false →
        ∀ locationsData, E.parseMapData req.body.data = some locationsData →
        E.mapConst.MIN_LOCATIONS ≤ locationsData.length →
        E.mapConst.MAX_LOCATIONS < locationsData.length →
        handler M E req store = (TooManyLocations E.mapConst, store)) := by
  rw [handler_create M E req store user h]
  refine ⟨handlerCreate_missing M E user req.body store, ?_⟩
  intro name short long hp ht
  rw [handlerCreate_text M E user req.body store name short long hp ht]
  refine ⟨?_, ?_, ?_, ?_, ?_, ?_, ?_, ?_⟩
  · intro h1
    simp [h1]
  · intro h1 h2
    simp [h1, h2]
  · intro h1 h2 h3
    simp [h1, h2, h3]
  · intro h1 h2 h3 h4
    simp [h1, h2, h3, h4]
  · intro h1 h2 h3 h4 h5
    simp [h1, h2, h3, h4, h5]
  · intro h1 h2 h3 h4 h5 h6
    simp [h1, h2, h3, h4, h5, h6]
  · intro h1 h2 h3 h4 h5 locs h6 h7
    simp [h1, h2, h3, h4, h5, h6, h7]
  · intro h1 h2 h3 h4 h5 locs h6 h7 h8
    simp [h1, h2, h3, h4, h5, h6, Nat.not_lt.mpr h7, h8]

theorem create_reports_first_failing_check_witness :
    handler (JsMath.mk Real.pi Real.cos Real.sin Real.sqrt)
        (exampleEnv exampleConst (some (equator 4)))
        (exampleCreate (.str (js "abc")) .undefined (.str (js "short")) (.str (js "long text")))
        [] = (MissingFields, []) ∧
    handler (JsMath.mk Real.pi Real.cos Real.sin Real.sqrt)
        (exampleEnv exampleConst (some (equator 4)))
        (exampleCreate (.str (js "ab")) (.arr []) (.str (js "s")) (.str (js "s")))
        [] = (InvalidName exampleConst, []) ∧
    handler (JsMath.mk Real.pi Real.cos Real.sin Real.sqrt)
        (exampleEnv exampleConst (some (equator 4)))
        (exampleCreate (.str (js "all")) (.arr []) (.str (js "s")) (.str (js "s")))
        [] = (InvalidShortDescription exampleConst, []) ∧
    handler (JsMath.mk Real.pi Real.cos Real.sin Real.sqrt)
        (exampleEnv exampleConst (some (equator 4)))
        (exampleCreate (.str (js "all")) (.arr []) (.str (js "short")) (.str (js "short")))
        [] = (InvalidLongDescription exampleConst, []) ∧
    handler (JsMath.mk Real.pi Real.cos Real.sin Real.sqrt)
        (exampleEnv exampleConst (some (equator 4)))
        (exampleCreate (.str (js "all")) (.arr []) (.str (js "the same")) (.str (js " the same ")))
        [] = (DuplicateDescriptions, []) ∧
    handler (JsMath.mk Real.pi Real.cos Real.sin Real.sqrt)
        (exampleEnv exampleConst (some (equator 4)))
        (exampleCreate (.str (js "All")) (.arr []) (.str (js "short")) (.str (js "long text")))
        [] = (NameCollision, []) ∧
    handler (JsMath.mk Real.pi Real.cos Real.sin Real.sqrt)
        (exampleEnv exampleConst none)
        (exampleCreate (.str (js "abc")) (.arr []) (.str (js "short")) (.str (js "long text")))
        [] = (InsufficientLocations exampleConst 0, []) ∧
    handler (JsMath.mk Real.pi Real.cos Real.sin Real.sqrt)
        (exampleEnv exampleConst (some (equator 1)))
        (exampleCreate (.str (js "abc")) (.arr []) (.str (js "short")) (.str (js "long text")))
        [] = (InsufficientLocations exampleConst 1, []) ∧
    handler (JsMath.mk Real.pi Real.cos Real.sin Real.sqrt)
        (exampleEnv exampleConst (some (equator 4)))
        (exampleCreate (.str (js "abc")) (.arr []) (.str (js "short")) (.str (js "long text")))
        [] = (TooManyLocations exampleConst, []) :=
  ⟨(create_reports_first_failing_check _ _ _ [] exampleUser (by exact ⟨rfl, rfl, rfl, rfl⟩)).1 (by decide),
   ((create_reports_first_failing_check _ _ _ [] exampleUser (by exact ⟨rfl, rfl, rfl, rfl⟩)).2
      (js "ab") (js "s") (js "s") (by decide) (by exact ⟨rfl, rfl, rfl⟩)).1 (by decide),
   ((create_reports_first_failing_check _ _ _ [] exampleUser (by exact ⟨rfl, rfl, rfl, rfl⟩)).2
      (js "all") (js "s") (js "s") (by decide) (by exact ⟨rfl, rfl, rfl⟩)).2.1 (by decide) (by decide),
   ((create_reports_first_failing_check _ _ _ [] exampleUser (by exact ⟨rfl, rfl, rfl, rfl⟩)).2
      (js "all") (js "short") (js "short") (by decide) (by exact ⟨rfl, rfl, rfl⟩)).2.2.1
      (by decide) (by decide) (by decide),
   ((create_reports_first_failing_check _ _ _ [] exampleUser (by exact ⟨rfl, rfl, rfl, rfl⟩)).2
      (js "all") (js "the same") (js " the same ") (by decide) (by exact ⟨rfl, rfl, rfl⟩)).2.2.2.1
      (by decide) (by decide) (by decide) (by decide),
   ((create_reports_first_failing_check _ _ _ [] exampleUser (by exact ⟨rfl, rfl, rfl, rfl⟩)).2
      (js "All") (js "short") (js "long text") (by decide) (by exact ⟨rfl, rfl, rfl⟩)).2.2.2.2.1
      (by decide) (by decide) (by decide) (by decide) (by decide),
   ((create_reports_first_failing_check _ _ _ [] exampleUser (by exact ⟨rfl, rfl, rfl, rfl⟩)).2
      (js "abc") (js "short") (js "long text") (by decide) (by exact ⟨rfl, rfl, rfl⟩)).2.2.2.2.2.1
      (by decide) (by decide) (by decide) (by decide) (by decide) rfl,
   ((create_reports_first_failing_check _ _ _ [] exampleUser (by exact ⟨rfl, rfl, rfl, rfl⟩)).2
      (js "abc") (js "short") (js "long text") (by decide) (by exact ⟨rfl, rfl, rfl⟩)).2.2.2.2.2.2.1
      (by decide) (by decide) (by decide) (by decide) (by decide) (equator 1) rfl (by decide),
   ((create_reports_first_failing_check _ _ _ [] exampleUser (by exact ⟨rfl, rfl, rfl, rfl⟩)).2
      (js "abc") (js "short") (js "long text") (by decide) (by exact ⟨rfl, rfl, rfl⟩)).2.2.2.2.2.2.2
      (by decide) (by decide) (by decide) (by decide) (by decide) (equator 4) rfl (by decide) (by decide)⟩

/-- The create branch once checks 1 to 6 have passed: the slug check, the
two count checks, the estimate and the creation remain. -/
theorem handler_checked (M : JsMath α) (E : Env α) (req : Request) (store : Store α)
    (user : User) (name short long : JsString) (h : CreateBy E req user)
    (hp : PassesTextChecks E.mapConst req.body name short long) :
    handler M E req store =
      if slugCollides E (E.generateSlug (trim name)) = true then (NameCollision, store)
      else
        match E.parseMapData req.body.data with
        | none => (InsufficientLocations E.mapConst 0, store)
        | some locationsData =>
          if locationsData.length < E.mapConst.MIN_LOCATIONS then
            (InsufficientLocations E.mapConst locationsData.length, store)
          else if locationsData.length > E.mapConst.MAX_LOCATIONS then
            (TooManyLocations E.mapConst, store)
          else
            match maxDist M locationsData with
            | none => (.throws, store)
            | some d =>
              ((Outcome.json 200 "Map created" (some (Map.create E.newId
                  { slug := E.generateSlug (trim name)
                    name := trim name
                    created_by := user._id
                    data := locationsData
                    description_short := trim short
                    description_long := trim long
                    maxDist := d } store).1)),
                (Map.create E.newId
                  { slug := E.generateSlug (trim name)
                    name := trim name
                    created_by := user._id
                    data := locationsData
                    description_short := trim short
                    description_long := trim long
                    maxDist := d } store).2) := by
  obtain ⟨h1, h2, h3, h4, h5, h6⟩ := hp
  rw [handler_create M E req store user h,
    handlerCreate_text M E user req.body store name short long h1 h2]
  simp [h3, h4, h5, h6]

theorem json_message_ne (s t : Nat) (m n : String) (a b : Option (MapDoc α)) (h : m ≠ n) :
    Outcome.json s m a ≠ Outcome.json t n b := by
  intro he
  injection he with _ hm _
  exact h hm

/-- C2 (counterexample): with a valid policy and `MAX_LOCATIONS + 1` parsed
points, a request whose name is too short is answered InvalidName, which is
not TooManyLocations. -/
theorem too_many_locations_needs_valid_fields :
    (equator 4 : List (GeoPoint ℝ)).length = exampleConst.MAX_LOCATIONS + 1 ∧
    handler (JsMath.mk Real.pi Real.cos Real.sin Real.sqrt)
        (exampleEnv exampleConst (some (equator 4)))
        (exampleCreate (.str (js "ab")) (.arr []) (.str (js "short")) (.str (js "long text")))
        [] = (InvalidName exampleConst, []) ∧
    (InvalidName exampleConst : Outcome ℝ) ≠ TooManyLocations exampleConst := by
  refine ⟨by decide, ?_, ?_⟩
  · rw [handler_create _ _ _ _ exampleUser (by exact ⟨rfl, rfl, rfl, rfl⟩),
      handlerCreate_text _ _ _ _ _ (js "ab") (js "short") (js "long text") (by decide)
        (by exact ⟨rfl, rfl, rfl⟩)]
    rw [if_pos (by decide)]
    rfl
  · exact json_message_ne _ _ _ _ _ _ (by decide)

/-- C2 (amended): a create request from a known user that passes checks 1
to 7 and whose parsed point list has `MAX_LOCATIONS + 1` points, not fewer
than `MIN_LOCATIONS`, fails with TooManyLocations. -/
theorem too_many_locations_after_checks (M : JsMath α) (E : Env α) (req : Request)
    (store : Store α) (user : User) (name short long : JsString)
    (locationsData : List (GeoPoint α)) (h : CreateBy E req user)
    (hp : PassesTextChecks E.mapConst req.body name short long)
    (hslug : slugCollides E (E.generateSlug (trim name)) = false)
    (hparse : E.parseMapData req.body.data = some locationsData)
    (hlen : locationsData.length = E.mapConst.MAX_LOCATIONS + 1)
    (hmin : E.mapConst.MIN_LOCATIONS ≤ locationsData.length) :
    handler M E req store = (TooManyLocations E.mapConst, store) := by
  rw [handler_checked M E req store user name short long h hp]
  simp only [hslug, hparse, Bool.false_eq_true, if_false]
  rw [if_neg (Nat.not_lt.mpr hmin), if_pos (by omega)]

theorem too_many_locations_after_checks_witness :
    handler (JsMath.mk Real.pi Real.cos Real.sin Real.sqrt)
        (exampleEnv exampleConst (some (equator 4)))
        (exampleCreate (.str (js "abc")) (.arr []) (.str (js "short")) (.str (js "long text")))
        [] = (TooManyLocations exampleConst, []) :=
  too_many_locations_after_checks _ _ _ [] exampleUser (js "abc") (js "short") (js "long text")
    (equator 4) (by exact ⟨rfl, rfl, rfl, rfl⟩)
    (by exact ⟨by decide, ⟨rfl, rfl, rfl⟩, by decide, by decide, by decide, by decide⟩)
    (by decide) rfl (by decide) (by decide)

theorem sorted_head_le {s : List (Cartesian α)} {a : Cartesian α} (hs : s.Sorted byX)
    (h : s.head? = some a) : ∀ c ∈ s, a.x ≤ c.x := by
  cases s with
  | nil => simp at h
  | cons b t =>
    simp only [List.head?_cons, Option.some.injEq] at h
    subst h
    intro c hc
    rcases List.mem_cons.mp hc with rfl | hc
    · exact le_refl _
    · exact sub_nonpos.mp (List.rel_of_sorted_cons hs c hc)

theorem sorted_le_getLast {s : List (Cartesian α)} {z : Cartesian α} (hs : s.Sorted byX)
    (h : s.getLast? = some z) : ∀ c ∈ s, c.x ≤ z.x := by
  induction s with
  | nil => simp at h
  | cons b t ih =>
    cases t with
    | nil =>
      simp only [List.getLast?_singleton, Option.some.injEq] at h
      subst h
      intro c hc
      simp only [List.mem_singleton] at hc
      rw [hc]
    | cons b2 t2 =>
      rw [List.getLast?_cons_cons] at h
      have hz := ih (List.Sorted.of_cons hs) h
      intro c hc
      rcases List.mem_cons.mp hc with rfl | hc
      · exact le_trans (sub_nonpos.mp (List.rel_of_sorted_cons hs b2 (List.mem_cons_self _ _)))
          (hz b2 (List.mem_cons_self _ _))
      · exact hz c hc

theorem sortByX_sorted (l : List (Cartesian α)) : (sortByX l).Sorted byX :=
  List.sorted_insertionSort byX l

theorem sortByX_perm (l : List (Cartesian α)) : (sortByX l).Perm l :=
  List.perm_insertionSort byX l

theorem maxDist_eq (M : JsMath α) (l : List (GeoPoint α)) :
    maxDist M l =
      match (sortByX (project M l)).head?, (sortByX (project M l)).getLast? with
      | some first, some last => some (calculateDistance M first last)
      | _, _ => none := rfl

theorem maxDist_nil (M : JsMath α) : maxDist M [] = none := rfl

/-- On a non-empty list the estimate is the distance between the first and the
last element of the sorted projections. -/
theorem maxDist_of_ne_nil (M : JsMath α) (l : List (GeoPoint α)) (hl : l ≠ []) :
    ∃ first last, (sortByX (project M l)).head? = some first ∧
      (sortByX (project M l)).getLast? = some last ∧
      maxDist M l = some (calculateDistance M first last) := by
  have hne : sortByX (project M l) ≠ [] := by
    intro h
    have hp := sortByX_perm (project M l)
    rw [h] at hp
    have := hp.length_eq
    simp only [List.length_nil, project, List.length_map] at this
    exact hl (List.length_eq_zero.mp this.symm)
  obtain ⟨a, ha⟩ : ∃ a, (sortByX (project M l)).head? = some a := by
    cases hs : sortByX (project M l) with
    | nil => exact absurd hs hne
    | cons a t => exact ⟨a, rfl⟩
  obtain ⟨z, hz⟩ : ∃ z, (sortByX (project M l)).getLast? = some z :=
    ⟨_, List.getLast?_eq_getLast _ hne⟩
  refine ⟨a, z, ha, hz, ?_⟩
  rw [maxDist_eq, ha, hz]

theorem project_equator_east :
    latLngToCartesian (JsMath.mk Real.pi Real.cos Real.sin Real.sqrt) 0 90 =
      { x := 0, y := 6371, z := 0 } := by
  have h : (90 : ℝ) * Real.pi / 180 = Real.pi / 2 := by ring
  simp [latLngToCartesian, h]

theorem project_equator_west :
    latLngToCartesian (JsMath.mk Real.pi Real.cos Real.sin Real.sqrt) 0 (-90) =
      { x := 0, y := -6371, z := 0 } := by
  have h : (-90 : ℝ) * Real.pi / 180 = -(Real.pi / 2) := by ring
  simp only [latLngToCartesian, h]
  simp

theorem project_north_pole :
    latLngToCartesian (JsMath.mk Real.pi Real.cos Real.sin Real.sqrt) 90 0 =
      { x := 0, y := 0, z := 6371 } := by
  have h : (90 : ℝ) * Real.pi / 180 = Real.pi / 2 := by ring
  simp [latLngToCartesian, h]

theorem maxDist_sharedX :
    maxDist (JsMath.mk Real.pi Real.cos Real.sin Real.sqrt) sharedX =
      some (Real.sqrt (6371 * 6371 + 6371 * 6371)) := by
  simp [maxDist, sharedX, sortByX, project_equator_east, project_equator_west,
    project_north_pole, byX, compareX, calculateDistance]

theorem maxDist_sharedXSwapped :
    maxDist (JsMath.mk Real.pi Real.cos Real.sin Real.sqrt) sharedXSwapped =
      some (Real.sqrt ((6371 + 6371) * (6371 + 6371))) := by
  simp [maxDist, sharedXSwapped, sortByX, project_equator_east, project_equator_west,
    project_north_pole, byX, compareX, calculateDistance]

/-- C3 (counterexample): the locations `(0, 90)`, `(0, -90)`, `(90, 0)` all
project to `x = 0`; in this order the estimate is the distance from the first
to the pole, with the last two exchanged it is the distance from the first to
its antipode, which is larger. -/
theorem maxDist_not_permutation_invariant :
    List.Perm (sharedX : List (GeoPoint ℝ)) sharedXSwapped ∧
    maxDist (JsMath.mk Real.pi Real.cos Real.sin Real.sqrt) sharedX ≠
      maxDist (JsMath.mk Real.pi Real.cos Real.sin Real.sqrt) sharedXSwapped := by
  refine ⟨?_, ?_⟩
  · unfold sharedX sharedXSwapped
    exact List.Perm.cons _ (List.Perm.swap _ _ _)
  · rw [maxDist_sharedX, maxDist_sharedXSwapped]
    intro h
    have h2 := Option.some.inj h
    rw [Real.sqrt_inj (by norm_num) (by norm_num)] at h2
    norm_num at h2

theorem mem_of_head_eq_some {β : Type} {s : List β} {a : β} (h : s.head? = some a) : a ∈ s := by
  cases s with
  | nil => simp at h
  | cons b t =>
    simp only [List.head?_cons, Option.some.injEq] at h
    simp [h]

/-- C3 (amended): the estimate is the same for a location list and for every
permutation of it, provided the projected points that attain the minimum `x`
are all equal and those that attain the maximum `x` are all equal. -/
theorem maxDist_perm_of_unique_extremes (M : JsMath α) (l l' : List (GeoPoint α))
    (hperm : l.Perm l')
    (hmin : ∀ a ∈ project M l, ∀ b ∈ project M l, a.x = b.x →
      (∀ c ∈ project M l, a.x ≤ c.x) → a = b)
    (hmax : ∀ a ∈ project M l, ∀ b ∈ project M l, a.x = b.x →
      (∀ c ∈ project M l, c.x ≤ a.x) → a = b) :
    maxDist M l = maxDist M l' := by
  by_cases hl : l = []
  · subst hl
    rw [List.Perm.nil_eq hperm]
  have hl' : l' ≠ [] := fun h => hl (by rw [h] at hperm; exact List.Perm.eq_nil hperm)
  obtain ⟨a, z, ha, hz, hd⟩ := maxDist_of_ne_nil M l hl
  obtain ⟨a', z', ha', hz', hd'⟩ := maxDist_of_ne_nil M l' hl'
  have hpp : (project M l).Perm (project M l') := List.Perm.map _ hperm
  have hs := sortByX_perm (project M l)
  have hs' := (sortByX_perm (project M l')).trans hpp.symm
  have ma : a ∈ project M l := hs.subset (mem_of_head_eq_some ha)
  have mz : z ∈ project M l := hs.subset (List.mem_of_getLast?_eq_some hz)
  have ma' : a' ∈ project M l := hs'.subset (mem_of_head_eq_some ha')
  have mz' : z' ∈ project M l := hs'.subset (List.mem_of_getLast?_eq_some hz')
  have amin : ∀ c ∈ project M l, a.x ≤ c.x := fun c hc =>
    sorted_head_le (sortByX_sorted _) ha c (hs.symm.subset hc)
  have amin' : ∀ c ∈ project M l, a'.x ≤ c.x := fun c hc =>
    sorted_head_le (sortByX_sorted _) ha' c (hs'.symm.subset hc)
  have zmax : ∀ c ∈ project M l, c.x ≤ z.x := fun c hc =>
    sorted_le_getLast (sortByX_sorted _) hz c (hs.symm.subset hc)
  have zmax' : ∀ c ∈ project M l, c.x ≤ z'.x := fun c hc =>
    sorted_le_getLast (sortByX_sorted _) hz' c (hs'.symm.subset hc)
  have e1 : a = a' := hmin a ma a' ma' (le_antisymm (amin a' ma') (amin' a ma)) amin
  have e2 : z = z' := hmax z mz z' mz' (le_antisymm (zmax' z mz) (zmax z' mz')) zmax
  rw [hd, hd', e1, e2]

theorem project_antipodes :
    project (JsMath.mk Real.pi Real.cos Real.sin Real.sqrt) antipodes =
      [{ x := 6371, y := 0, z := 0 }, { x := -6371, y := 0, z := 0 }] := by
  have h : (180 : ℝ) * Real.pi / 180 = Real.pi := by ring
  simp only [project, antipodes, List.map, latLngToCartesian, h]
  simp

theorem maxDist_perm_of_unique_extremes_witness :
    maxDist (JsMath.mk Real.pi Real.cos Real.sin Real.sqrt) antipodes =
      maxDist (JsMath.mk Real.pi Real.cos Real.sin Real.sqrt) antipodes.reverse := by
  refine maxDist_perm_of_unique_extremes _ antipodes antipodes.reverse
    (List.reverse_perm antipodes).symm ?_ ?_
  · rw [project_antipodes]
    intro a ha b hb hx _
    simp only [List.mem_cons, List.mem_singleton, List.not_mem_nil, or_false] at ha hb
    rcases ha with rfl | rfl <;> rcases hb with rfl | rfl <;> first | rfl | (norm_num at hx)
  · rw [project_antipodes]
    intro a ha b hb hx _
    simp only [List.mem_cons, List.mem_singleton, List.not_mem_nil, or_false] at ha hb
    rcases ha with rfl | rfl <;> rcases hb with rfl | rfl <;> first | rfl | (norm_num at hx)

theorem sortByX_singleton (c : Cartesian α) : sortByX [c] = [c] := rfl

/-- On one location the estimate is the distance of its projection to
itself. -/
theorem maxDist_singleton (M : JsMath α) (p : GeoPoint α) :
    maxDist M [p] =
      some (calculateDistance M (latLngToCartesian M p.lat p.lng)
        (latLngToCartesian M p.lat p.lng)) := rfl

theorem calculateDistance_self (c : Cartesian ℝ) :
    calculateDistance (JsMath.mk Real.pi Real.cos Real.sin Real.sqrt) c c = 0 := by
  simp [calculateDistance]

/-- The create branch when every check passes and the estimate is `d`: the
record is handed to the store and the answer is 200. -/
theorem handler_success (M : JsMath α) (E : Env α) (req : Request) (store : Store α)
    (user : User) (name short long : JsString) (locationsData : List (GeoPoint α)) (d : α)
    (h : CreateBy E req user) (hp : PassesTextChecks E.mapConst req.body name short long)
    (hslug : slugCollides E (E.generateSlug (trim name)) = false)
    (hparse : E.parseMapData req.body.data = some locationsData)
    (hmin : E.mapConst.MIN_LOCATIONS ≤ locationsData.length)
    (hmax : locationsData.length ≤ E.mapConst.MAX_LOCATIONS)
    (hd : maxDist M locationsData = some d) :
    handler M E req store =
      (Outcome.json 200 "Map created" (some
          { slug := E.generateSlug (trim name)
            name := trim name
            created_by := user._id
            data := locationsData
            description_short := trim short
            description_long := trim long
            maxDist := d
            _id := E.newId store }),
        store ++ [{ slug := E.generateSlug (trim name)
                    name := trim name
                    created_by := user._id
                    data := locationsData
                    description_short := trim short
                    description_long := trim long
                    maxDist := d
                    _id := E.newId store }]) := by
  rw [handler_checked M E req store user name short long h hp]
  simp only [hslug, hparse, Bool.false_eq_true, if_false]
  rw [if_neg (Nat.not_lt.mpr hmin), if_neg (Nat.not_lt.mpr hmax)]
  simp only [hd, Map.create]

theorem calculateDistance_nonneg (a b : Cartesian ℝ) :
    0 ≤ calculateDistance (JsMath.mk Real.pi Real.cos Real.sin Real.sqrt) a b :=
  Real.sqrt_nonneg _

/-- C5 (counterexample): three requests at the minimum lengths that do not
succeed. With the example policy, the name ` ab` has length
`MIN_NAME_LENGTH` and is answered InvalidName, its trimmed length being 2.
With `MIN_LOCATIONS = 0` and a parse result of no points the handler throws.
With `MIN_NAME_LENGTH` above `MAX_NAME_LENGTH` a name of length
`MIN_NAME_LENGTH` is answered InvalidName. -/
theorem minimum_lengths_can_fail :
    ((js " ab").length = exampleConst.MIN_NAME_LENGTH ∧
      (js "abcd").length = exampleConst.MIN_SHORT_DESCRIPTION_LENGTH ∧
      (js "abcdef").length = exampleConst.MIN_LONG_DESCRIPTION_LENGTH ∧
      (equator 2 : List (GeoPoint ℝ)).length = exampleConst.MIN_LOCATIONS ∧
      handler (JsMath.mk Real.pi Real.cos Real.sin Real.sqrt)
        (exampleEnv exampleConst (some (equator 2)))
        (exampleCreate (.str (js " ab")) (.arr []) (.str (js "abcd")) (.str (js "abcdef")))
        [] = (InvalidName exampleConst, [])) ∧
    ((equator 0 : List (GeoPoint ℝ)).length = emptyMapConst.MIN_LOCATIONS ∧
      handler (JsMath.mk Real.pi Real.cos Real.sin Real.sqrt)
        (exampleEnv emptyMapConst (some (equator 0)))
        (exampleCreate (.str (js "abc")) (.arr []) (.str (js "abcd")) (.str (js "abcdef")))
        [] = (Outcome.throws, [])) ∧
    ((js "abcdefghijk").length = invertedConst.MIN_NAME_LENGTH ∧
      handler (JsMath.mk Real.pi Real.cos Real.sin Real.sqrt)
        (exampleEnv invertedConst (some (equator 2)))
        (exampleCreate (.str (js "abcdefghijk")) (.arr []) (.str (js "abcd"))
          (.str (js "abcdef")))
        [] = (InvalidName invertedConst, [])) := by
  refine ⟨⟨by decide, by decide, by decide, by decide, ?_⟩, ⟨by decide, ?_⟩, ⟨by decide, ?_⟩⟩
  · rw [handler_create _ _ _ _ exampleUser (by exact ⟨rfl, rfl, rfl, rfl⟩),
      handlerCreate_text _ _ _ _ _ (js " ab") (js "abcd") (js "abcdef") (by decide)
        (by exact ⟨rfl, rfl, rfl⟩)]
    rw [if_pos (by decide)]
    rfl
  · rw [handler_checked _ _ _ [] exampleUser (js "abc") (js "abcd") (js "abcdef")
      (by exact ⟨rfl, rfl, rfl, rfl⟩)
      (by exact ⟨by decide, ⟨rfl, rfl, rfl⟩, by decide, by decide, by decide, by decide⟩)]
    rw [if_neg (by decide)]
    rfl
  · rw [handler_create _ _ _ _ exampleUser (by exact ⟨rfl, rfl, rfl, rfl⟩),
      handlerCreate_text _ _ _ _ _ (js "abcdefghijk") (js "abcd") (js "abcdef") (by decide)
        (by exact ⟨rfl, rfl, rfl⟩)]
    rw [if_pos (by decide)]
    rfl

/-- C5 (amended): for every policy whose minima do not exceed the maxima and
with `MIN_LOCATIONS` at least 1, a create request from a known user with the
four fields present, a name, a short and a long description whose trimmed
lengths are the minimum lengths, the trimmed descriptions distinct, a slug
that passes the collision check and a parse result of exactly
`MIN_LOCATIONS` points is answered 200, hands one record to the store, and
the `maxDist` of that record is at least 0 (over the reals). -/
theorem create_at_minimum_lengths (E : Env ℝ) (req : Request) (store : Store ℝ) (user : User)
    (name short long : JsString) (locationsData : List (GeoPoint ℝ))
    (h : CreateBy E req user) (hpres : AllPresent req.body)
    (ht : TextFields req.body name short long)
    (hn : (trim name).length = E.mapConst.MIN_NAME_LENGTH)
    (hs : (trim short).length = E.mapConst.MIN_SHORT_DESCRIPTION_LENGTH)
    (hl : (trim long).length = E.mapConst.MIN_LONG_DESCRIPTION_LENGTH)
    (hne : trim short ≠ trim long)
    (hslug : slugCollides E (E.generateSlug (trim name)) = false)
    (hparse : E.parseMapData req.body.data = some locationsData)
    (hlen : locationsData.length = E.mapConst.MIN_LOCATIONS)
    (pn : E.mapConst.MIN_NAME_LENGTH ≤ E.mapConst.MAX_NAME_LENGTH)
    (ps : E.mapConst.MIN_SHORT_DESCRIPTION_LENGTH ≤ E.mapConst.MAX_SHORT_DESCRIPTION_LENGTH)
    (pl : E.mapConst.MIN_LONG_DESCRIPTION_LENGTH ≤ E.mapConst.MAX_LONG_DESCRIPTION_LENGTH)
    (p1 : 1 ≤ E.mapConst.MIN_LOCATIONS)
    (p2 : E.mapConst.MIN_LOCATIONS ≤ E.mapConst.MAX_LOCATIONS) :
    ∃ doc : MapDoc ℝ,
      handler (JsMath.mk Real.pi Real.cos Real.sin Real.sqrt) E req store =
        (Outcome.json 200 "Map created" (some doc), store ++ [doc]) ∧
      0 ≤ doc.maxDist := by
  have hnil : locationsData ≠ [] := by
    intro h0
    rw [h0] at hlen
    simp only [List.length_nil] at hlen
    omega
  obtain ⟨a, z, _, _, hd⟩ :=
    maxDist_of_ne_nil (JsMath.mk Real.pi Real.cos Real.sin Real.sqrt) locationsData hnil
  have hp : PassesTextChecks E.mapConst req.body name short long :=
    ⟨hpres, ht, ⟨by omega, by omega⟩, ⟨by omega, by omega⟩, ⟨by omega, by omega⟩, hne⟩
  exact ⟨_, handler_success _ E req store user name short long locationsData _ h hp hslug
    hparse (by omega) (by omega) hd, calculateDistance_nonneg a z⟩

theorem create_at_minimum_lengths_witness :
    ∃ doc : MapDoc ℝ,
      handler (JsMath.mk Real.pi Real.cos Real.sin Real.sqrt)
        (exampleEnv exampleConst (some (equator 2)))
        (exampleCreate (.str (js "abc")) (.arr []) (.str (js "abcd")) (.str (js "abcdef")))
        [] = (Outcome.json 200 "Map created" (some doc), [] ++ [doc]) ∧
      0 ≤ doc.maxDist :=
  create_at_minimum_lengths _ _ [] exampleUser (js "abc") (js "abcd") (js "abcdef") (equator 2)
    (by exact ⟨rfl, rfl, rfl, rfl⟩) (by decide) (by exact ⟨rfl, rfl, rfl⟩) (by decide)
    (by decide) (by decide) (by decide) (by decide) rfl (by decide) (by decide) (by decide)
    (by decide) (by decide) (by decide)

/-- A present field that is not a string makes the create branch throw: the
call of `trim` fails before any check of lines 59-90. -/
theorem handlerCreate_text_or_throws (M : JsMath α) (E : Env α) (user : User) (b : Body)
    (store : Store α) (hp : AllPresent b) :
    (∃ name short long, TextFields b name short long) ∨
      handlerCreate M E user b store = (Outcome.throws, store) := by
  obtain ⟨h1, h2, h3, h4⟩ := hp
  have hif : (!truthy b.name || !truthy b.data || !truthy b.description_short ||
      !truthy b.description_long) = false := by simp [h1, h2, h3, h4]
  cases hn : b.name with
  | str name =>
    cases hs : b.description_short with
    | str short =>
      cases hl : b.description_long with
      | str long => exact Or.inl ⟨name, short, long, hn, hs, hl⟩
      | _ => right; unfold handlerCreate; rw [hif]; simp [hn, hs, hl, callTrim]
    | _ => right; unfold handlerCreate; rw [hif]; simp [hn, hs, callTrim]
  | _ => right; unfold handlerCreate; rw [hif]; simp [hn, callTrim]

theorem strictEqStr_eq {v : JsVal} {lit : JsString} (h : strictEqStr v lit = true) :
    v = .str lit := by
  cases v <;> simp_all [strictEqStr]

theorem handlerDelete_map_none (user : User) (b : Body) (store : Store α) (status : Nat)
    (message : String) (doc : MapDoc α) :
    (handlerDelete user b store).1 ≠ Outcome.json status message (some doc) := by
  unfold handlerDelete
  split
  · simp
  · split
    · simp
    · split <;> simp

/-- The only way to an answer that carries a `map`: a create request of a
known user that passes every check, for which the estimate is defined; the
document is the record of lines 102-110 with the id given by the store. -/
theorem handler_created_inv (M : JsMath α) (E : Env α) (req : Request) (store : Store α)
    (status : Nat) (message : String) (doc : MapDoc α)
    (h : (handler M E req store).1 = Outcome.json status message (some doc)) :
    ∃ user name short long locationsData d,
      CreateBy E req user ∧ PassesTextChecks E.mapConst req.body name short long ∧
      slugCollides E (E.generateSlug (trim name)) = false ∧
      E.parseMapData req.body.data = some locationsData ∧
      E.mapConst.MIN_LOCATIONS ≤ locationsData.length ∧
      locationsData.length ≤ E.mapConst.MAX_LOCATIONS ∧
      maxDist M locationsData = some d ∧
      doc = { slug := E.generateSlug (trim name)
              name := trim name
              created_by := user._id
              data := locationsData
              description_short := trim short
              description_long := trim long
              maxDist := d
              _id := E.newId store } := by
  unfold handler at h
  by_cases hm : req.method = "POST"
  swap
  · simp [hm] at h
  by_cases ht : truthy req.body.action = true ∧ truthy req.body.secret = true
  swap
  · rw [if_neg (by simp [hm]), if_pos] at h
    · simp at h
    · revert ht
      cases truthy req.body.action <;> cases truthy req.body.secret <;> simp
  rw [if_neg (by simp [hm]), if_neg (by simp [ht.1, ht.2])] at h
  cases hu : E.findOne req.body.secret with
  | none => simp [hu] at h
  | some user =>
    simp only [hu] at h
    by_cases hc : strictEqStr req.body.action (js "create") = true
    swap
    · rw [if_neg hc] at h
      split at h
      · exact absurd h (handlerDelete_map_none user req.body store status message doc)
      · simp at h
    rw [if_pos hc] at h
    have hcb : CreateBy E req user := ⟨hm, ht.2, hu, strictEqStr_eq hc⟩
    by_cases hp : AllPresent req.body
    swap
    · rw [handlerCreate_missing M E user req.body store hp] at h
      simp [MissingFields] at h
    rcases handlerCreate_text_or_throws M E user req.body store hp with ⟨name, short, long, htf⟩ | hthrow
    swap
    · rw [hthrow] at h
      simp at h
    rw [handlerCreate_text M E user req.body store name short long hp htf] at h
    refine ⟨user, name, short, long, ?_⟩
    split at h
    · simp [InvalidName] at h
    rename_i h1
    split at h
    · simp [InvalidShortDescription] at h
    rename_i h2
    split at h
    · simp [InvalidLongDescription] at h
    rename_i h3
    split at h
    · simp [DuplicateDescriptions] at h
    rename_i h4
    split at h
    · simp [NameCollision] at h
    rename_i h5
    split at h
    · simp [InsufficientLocations] at h
    rename_i locationsData hparse
    split at h
    · simp [InsufficientLocations] at h
    rename_i h6
    split at h
    · simp [TooManyLocations] at h
    rename_i h7
    split at h
    · simp at h
    rename_i d hd
    refine ⟨locationsData, d, hcb, ⟨hp, htf, not_not.mp h1, not_not.mp h2, not_not.mp h3, h4⟩,
      by simpa using h5, hparse, by omega, by omega, hd, ?_⟩
    simp only [Map.create, Outcome.json.injEq, Option.some.injEq] at h
    exact h.2.2.symm

/-- With upper-case country codes the condition of line 79 is the reserved
set of the specification. -/
theorem slugCollides_iff_reserved (E : Env α) (slug : JsString) (hiso : UpperCaseCodes E) :
    slugCollides E slug = true ↔ Reserved E slug := by
  have hc : E.countries.contains (E.toUpperCase slug) = true ↔
      ∃ c ∈ E.countries, E.toUpperCase slug = E.toUpperCase c := by
    rw [List.contains_iff_exists_mem_beq]
    constructor
    · rintro ⟨c, hc, he⟩
      exact ⟨c, hc, by rw [hiso c hc]; exact beq_iff_eq.mp he⟩
    · rintro ⟨c, hc, he⟩
      exact ⟨c, hc, by rw [he, hiso c hc]; exact beq_self_eq_true c⟩
  have ho : (E.officialCountryMaps.find? (fun map => map.slug == slug)).isSome = true ↔
      ∃ m ∈ E.officialCountryMaps, m.slug = slug := by
    rw [List.find?_isSome]
    simp only [beq_iff_eq]
  unfold slugCollides Reserved
  rw [Bool.or_eq_true, Bool.or_eq_true, hc, ho, beq_iff_eq, or_assoc]

theorem equator_length (n : Nat) : (equator n : List (GeoPoint α)).length = n := by
  unfold equator
  rw [List.length_map, List.length_range]

theorem equator_succ_ne_nil (n : Nat) : (equator (n + 1) : List (GeoPoint α)) ≠ [] := by
  intro h
  have := congrArg List.length h
  rw [equator_length] at this
  simp at this

/-- C6: a create request that passes the presence, length and
distinct-description checks and whose slug is `all`, or equals an entry of
the country-code list when letter case is ignored, or is the slug of an
official country map, fails with NameCollision; hence no map handed to the
store has a reserved slug. The country codes are upper-case. -/
theorem reserved_slug_rejected (M : JsMath α) (E : Env α) (req : Request) (store : Store α)
    (hiso : UpperCaseCodes E) :
    (∀ (user : User) (name short long : JsString), CreateBy E req user →
      PassesTextChecks E.mapConst req.body name short long →
      Reserved E (E.generateSlug (trim name)) →
      handler M E req store = (NameCollision, store)) ∧
    (∀ (status : Nat) (message : String) (doc : MapDoc α),
      (handler M E req store).1 = Outcome.json status message (some doc) →
      ¬ Reserved E doc.slug) := by
  refine ⟨?_, ?_⟩
  · intro user name short long h hp hres
    rw [handler_checked M E req store user name short long h hp,
      if_pos ((slugCollides_iff_reserved E _ hiso).mpr hres)]
  · intro status message doc h hres
    obtain ⟨user, name, short, long, locationsData, d, _, _, hslug, _, _, _, _, hdoc⟩ :=
      handler_created_inv M E req store status message doc h
    rw [hdoc] at hres
    rw [(slugCollides_iff_reserved E _ hiso).mpr hres] at hslug
    exact Bool.noConfusion hslug

theorem reserved_slug_rejected_witness :
    handler (JsMath.mk Real.pi Real.cos Real.sin Real.sqrt)
        (exampleEnv shortNameConst (some (equator 2)))
        (exampleCreate (.str (js "Fr")) (.arr []) (.str (js "short")) (.str (js "long text")))
        [] = (NameCollision, []) ∧
    ¬ Reserved (exampleEnv exampleConst (some (equator 2)) : Env ℝ) (js "abc") := by
  refine ⟨?_, ?_⟩
  · exact (reserved_slug_rejected _ (exampleEnv shortNameConst (some (equator 2)))
      (exampleCreate (.str (js "Fr")) (.arr []) (.str (js "short")) (.str (js "long text")))
      [] (by decide)).1 exampleUser (js "Fr") (js "short") (js "long text")
      (by exact ⟨rfl, rfl, rfl, rfl⟩)
      (by exact ⟨by decide, ⟨rfl, rfl, rfl⟩, by decide, by decide, by decide, by decide⟩)
      (Or.inr (Or.inl ⟨js "FR", by decide, by decide⟩))
  · obtain ⟨a, z, _, _, hd⟩ := maxDist_of_ne_nil
      (JsMath.mk Real.pi Real.cos Real.sin Real.sqrt) (equator 2) (equator_succ_ne_nil 1)
    have hs := handler_success (JsMath.mk Real.pi Real.cos Real.sin Real.sqrt)
      (exampleEnv exampleConst (some (equator 2)))
      (exampleCreate (.str (js "abc")) (.arr []) (.str (js "short")) (.str (js "long text")))
      [] exampleUser (js "abc") (js "short") (js "long text") (equator 2) _
      (by exact ⟨rfl, rfl, rfl, rfl⟩)
      (by exact ⟨by decide, ⟨rfl, rfl, rfl⟩, by decide, by decide, by decide, by decide⟩)
      (by decide) rfl (by decide) (by decide) hd
    exact (reserved_slug_rejected (JsMath.mk Real.pi Real.cos Real.sin Real.sqrt)
      (exampleEnv exampleConst (some (equator 2)))
      (exampleCreate (.str (js "abc")) (.arr []) (.str (js "short")) (.str (js "long text")))
      [] (by decide)).2 200 "Map created" _ (by rw [hs])

theorem json_firstTwo_ne (s t : Nat) (m n : String) (a b : Option (MapDoc α))
    (h : m.data.take 2 ≠ n.data.take 2) : Outcome.json s m a ≠ Outcome.json t n b :=
  json_message_ne s t m n a b (fun he => h (by rw [he]))

/-- With the four fields present and a name whose trimmed length is within
its bounds, no outcome of the create branch is the answer InvalidName. -/
theorem handlerCreate_ne_invalidName (M : JsMath α) (E : Env α) (user : User) (b : Body)
    (store : Store α) (name : JsString) (hp : AllPresent b) (hn : b.name = .str name)
    (hr : NameInRange E.mapConst name) :
    (handlerCreate M E user b store).1 ≠ InvalidName E.mapConst := by
  rcases handlerCreate_text_or_throws M E user b store hp with ⟨name', short, long, htf⟩ | ht
  swap
  · rw [ht]
    simp [InvalidName]
  have hnn : name' = name := by
    have := htf.1
    rw [hn] at this
    injection this with h
    exact h.symm
  subst hnn
  rw [handlerCreate_text M E user b store name' short long hp htf, if_neg (not_not.mpr hr)]
  unfold InvalidName
  split
  · exact json_firstTwo_ne _ _ _ _ _ _ (by simp [String.data_append])
  split
  · exact json_firstTwo_ne _ _ _ _ _ _ (by simp [String.data_append])
  split
  · exact json_firstTwo_ne _ _ _ _ _ _ (by simp [String.data_append])
  split
  · exact json_firstTwo_ne _ _ _ _ _ _ (by simp [String.data_append])
  split
  · exact json_firstTwo_ne _ _ _ _ _ _ (by simp [String.data_append])
  split
  · exact json_firstTwo_ne _ _ _ _ _ _ (by simp [String.data_append])
  split
  · exact json_firstTwo_ne _ _ _ _ _ _ (by simp [String.data_append])
  split
  · simp
  · exact json_firstTwo_ne _ _ _ _ _ _ (by simp [String.data_append])

/-- C7 (counterexample): a create request with the name `ab`, shorter than
`MIN_NAME_LENGTH`, and no short description is answered MissingFields, not
InvalidName; and a create request whose name has 12 code units, more than
`MAX_NAME_LENGTH`, 9 of them surrounding blanks, is accepted. -/
theorem name_out_of_range_not_always_invalidName :
    ((js "ab").length < exampleConst.MIN_NAME_LENGTH ∧
      handler (JsMath.mk Real.pi Real.cos Real.sin Real.sqrt)
        (exampleEnv exampleConst (some (equator 2)))
        (exampleCreate (.str (js "ab")) (.arr []) .undefined (.str (js "long text")))
        [] = (MissingFields, []) ∧
      (MissingFields : Outcome ℝ) ≠ InvalidName exampleConst) ∧
    (onePointConst.MAX_NAME_LENGTH < (js "   abc      ").length ∧
      handler (JsMath.mk Real.pi Real.cos Real.sin Real.sqrt)
        (exampleEnv onePointConst (some (equator 1)))
        (exampleCreate (.str (js "   abc      ")) (.arr []) (.str (js "short"))
          (.str (js "long text")))
        [] =
      (Outcome.json 200 "Map created" (some (exampleDoc (equator 1) 0)),
        [exampleDoc (equator 1) 0])) := by
  refine ⟨⟨by decide, ?_, ?_⟩, ⟨by decide, ?_⟩⟩
  · rw [handler_create _ _ _ _ exampleUser (by exact ⟨rfl, rfl, rfl, rfl⟩),
      handlerCreate_missing _ _ _ _ _ (by decide)]
  · exact json_message_ne _ _ _ _ _ _ (by decide)
  · have hd : maxDist (JsMath.mk Real.pi Real.cos Real.sin Real.sqrt) (equator 1) = some 0 := by
      have : (equator 1 : List (GeoPoint ℝ)) = [{ lat := 0, lng := ((0 : ℕ) : ℝ) }] := rfl
      rw [this, maxDist_singleton, calculateDistance_self]
    rw [handler_success _ _ _ [] exampleUser (js "   abc      ") (js "short") (js "long text")
      (equator 1) 0 (by exact ⟨rfl, rfl, rfl, rfl⟩)
      (by exact ⟨by decide, ⟨rfl, rfl, rfl⟩, by decide, by decide, by decide, by decide⟩)
      (by decide) rfl (by decide) (by decide) hd]
    rfl

/-- C7 (amended): for a create request from a known user in which the four
fields are present and the name is a string: when the descriptions are
strings too and the trimmed name is shorter than `MIN_NAME_LENGTH` or longer
than `MAX_NAME_LENGTH` the answer is InvalidName; and when the length of the
trimmed name lies within the bounds the outcome is never InvalidName. -/
theorem name_length_check (M : JsMath α) (E : Env α) (req : Request) (store : Store α)
    (user : User) (name : JsString) (h : CreateBy E req user) (hp : AllPresent req.body)
    (hn : req.body.name = .str name) :
    (∀ short long : JsString, req.body.description_short = .str short →
      req.body.description_long = .str long →
      ((trim name).length < E.mapConst.MIN_NAME_LENGTH ∨
        E.mapConst.MAX_NAME_LENGTH < (trim name).length) →
      handler M E req store = (InvalidName E.mapConst, store)) ∧
    (NameInRange E.mapConst name →
      (handler M E req store).1 ≠ InvalidName E.mapConst) := by
  rw [handler_create M E req store user h]
  refine ⟨?_, handlerCreate_ne_invalidName M E user req.body store name hp hn⟩
  intro short long hs hl hout
  rw [handlerCreate_text M E user req.body store name short long hp ⟨hn, hs, hl⟩, if_pos]
  unfold NameInRange
  omega

theorem name_length_check_witness :
    handler (JsMath.mk Real.pi Real.cos Real.sin Real.sqrt)
        (exampleEnv exampleConst (some (equator 2)))
        (exampleCreate (.str (js " ab ")) (.arr []) (.str (js "short")) (.str (js "long text")))
        [] = (InvalidName exampleConst, []) ∧
    (handler (JsMath.mk Real.pi Real.cos Real.sin Real.sqrt)
        (exampleEnv exampleConst (some (equator 2)))
        (exampleCreate (.str (js " abc ")) (.arr []) (.num 7) (.str (js "long text")))
        []).1 ≠ InvalidName exampleConst :=
  ⟨(name_length_check _ _ _ [] exampleUser (js " ab ") (by exact ⟨rfl, rfl, rfl, rfl⟩)
      (by decide) rfl).1 (js "short") (js "long text") rfl rfl (by decide),
   (name_length_check _ _ _ [] exampleUser (js " abc ") (by exact ⟨rfl, rfl, rfl, rfl⟩)
      (by decide) rfl).2 (by decide)⟩

/-- C8: a create request whose name and both descriptions pass their length
checks and whose short and long descriptions are equal after trimming fails
with DuplicateDescriptions; consequently every record handed to the store
has `description_short` different from `description_long`. -/
theorem duplicate_descriptions_rejected (M : JsMath α) (E : Env α) (req : Request)
    (store : Store α) :
    (∀ (user : User) (name short long : JsString), CreateBy E req user →
      AllPresent req.body → TextFields req.body name short long →
      NameInRange E.mapConst name → ShortInRange E.mapConst short →
      LongInRange E.mapConst long → trim short = trim long →
      handler M E req store = (DuplicateDescriptions, store)) ∧
    (∀ (status : Nat) (message : String) (doc : MapDoc α),
      (handler M E req store).1 = Outcome.json status message (some doc) →
      doc.description_short ≠ doc.description_long) := by
  refine ⟨?_, ?_⟩
  · intro user name short long h hp ht h1 h2 h3 h4
    rw [handler_create M E req store user h,
      handlerCreate_text M E user req.body store name short long hp ht]
    simp [h1, h2, h3, h4]
  · intro status message doc h
    obtain ⟨user, name, short, long, locationsData, d, _, hp, _, _, _, _, _, hdoc⟩ :=
      handler_created_inv M E req store status message doc h
    rw [hdoc]
    exact hp.2.2.2.2.2

theorem duplicate_descriptions_rejected_witness :
    handler (JsMath.mk Real.pi Real.cos Real.sin Real.sqrt)
        (exampleEnv exampleConst (some (equator 2)))
        (exampleCreate (.str (js "abc")) (.arr []) (.str (js "the same")) (.str (js " the same ")))
        [] = (DuplicateDescriptions, []) ∧
    (exampleDoc (equator 1) (0 : ℝ)).description_short ≠
      (exampleDoc (equator 1) (0 : ℝ)).description_long := by
  refine ⟨?_, ?_⟩
  · exact (duplicate_descriptions_rejected _ _ _ []).1 exampleUser (js "abc") (js "the same")
      (js " the same ") (by exact ⟨rfl, rfl, rfl, rfl⟩) (by decide) (by exact ⟨rfl, rfl, rfl⟩)
      (by decide) (by decide) (by decide) (by decide)
  · have hd : maxDist (JsMath.mk Real.pi Real.cos Real.sin Real.sqrt) (equator 1) = some 0 := by
      have : (equator 1 : List (GeoPoint ℝ)) = [{ lat := 0, lng := ((0 : ℕ) : ℝ) }] := rfl
      rw [this, maxDist_singleton, calculateDistance_self]
    have hs := handler_success (JsMath.mk Real.pi Real.cos Real.sin Real.sqrt)
      (exampleEnv onePointConst (some (equator 1)))
      (exampleCreate (.str (js "abc")) (.arr []) (.str (js "short")) (.str (js "long text")))
      [] exampleUser (js "abc") (js "short") (js "long text") (equator 1) 0
      (by exact ⟨rfl, rfl, rfl, rfl⟩)
      (by exact ⟨by decide, ⟨rfl, rfl, rfl⟩, by decide, by decide, by decide, by decide⟩)
      (by decide) rfl (by decide) (by decide) hd
    exact (duplicate_descriptions_rejected (JsMath.mk Real.pi Real.cos Real.sin Real.sqrt)
      (exampleEnv onePointConst (some (equator 1)))
      (exampleCreate (.str (js "abc")) (.arr []) (.str (js "short")) (.str (js "long text")))
      []).2 200 "Map created" (exampleDoc (equator 1) 0) (by rw [hs]; rfl)

/-- C9 (amended): for a create request that passes checks 1 to 7, if the
parser yields nothing, or fewer than `MIN_LOCATIONS` points (an empty list
included when `MIN_LOCATIONS` is at least 1), the handler fails with
InsufficientLocations, and the message carries the number of points
obtained, `0` when the parser yields nothing. -/
theorem insufficient_locations_reported (M : JsMath α) (E : Env α) (req : Request)
    (store : Store α) (user : User) (name short long : JsString) (h : CreateBy E req user)
    (hp : PassesTextChecks E.mapConst req.body name short long)
    (hslug : slugCollides E (E.generateSlug (trim name)) = false) :
    (E.parseMapData req.body.data = none →
      handler M E req store =
        (Outcome.json 400 ("Need at least " ++ toString E.mapConst.MIN_LOCATIONS ++
          " valid locations (got " ++ toString (0 : Nat) ++ ")") none, store)) ∧
    (E.parseMapData req.body.data = some [] → 0 < E.mapConst.MIN_LOCATIONS →
      handler M E req store =
        (Outcome.json 400 ("Need at least " ++ toString E.mapConst.MIN_LOCATIONS ++
          " valid locations (got " ++ toString (0 : Nat) ++ ")") none, store)) ∧
    (∀ locationsData : List (GeoPoint α),
      E.parseMapData req.body.data = some locationsData →
      locationsData.length < E.mapConst.MIN_LOCATIONS →
      handler M E req store =
        (Outcome.json 400 ("Need at least " ++ toString E.mapConst.MIN_LOCATIONS ++
          " valid locations (got " ++ toString locationsData.length ++ ")") none, store)) := by
  rw [handler_checked M E req store user name short long h hp]
  simp only [hslug, Bool.false_eq_true, if_false]
  refine ⟨?_, ?_, ?_⟩
  · intro hparse
    simp only [hparse]
    rfl
  · intro hparse hmin
    simp only [hparse, List.length_nil]
    rw [if_pos hmin]
    rfl
  · intro locationsData hparse hlt
    simp only [hparse]
    rw [if_pos hlt]
    rfl

theorem insufficient_locations_reported_witness :
    handler (JsMath.mk Real.pi Real.cos Real.sin Real.sqrt)
        (exampleEnv exampleConst none)
        (exampleCreate (.str (js "abc")) (.arr []) (.str (js "short")) (.str (js "long text")))
        [] = (Outcome.json 400 "Need at least 2 valid locations (got 0)" none, []) ∧
    handler (JsMath.mk Real.pi Real.cos Real.sin Real.sqrt)
        (exampleEnv exampleConst (some []))
        (exampleCreate (.str (js "abc")) (.arr []) (.str (js "short")) (.str (js "long text")))
        [] = (Outcome.json 400 "Need at least 2 valid locations (got 0)" none, []) ∧
    handler (JsMath.mk Real.pi Real.cos Real.sin Real.sqrt)
        (exampleEnv exampleConst (some (equator 1)))
        (exampleCreate (.str (js "abc")) (.arr []) (.str (js "short")) (.str (js "long text")))
        [] = (Outcome.json 400 "Need at least 2 valid locations (got 1)" none, []) :=
  ⟨(insufficient_locations_reported _ (exampleEnv exampleConst none) _ [] exampleUser
      (js "abc") (js "short") (js "long text") (by exact ⟨rfl, rfl, rfl, rfl⟩)
      (by exact ⟨by decide, ⟨rfl, rfl, rfl⟩, by decide, by decide, by decide, by decide⟩)
      (by decide)).1 rfl,
   (insufficient_locations_reported _ (exampleEnv exampleConst (some [])) _ [] exampleUser
      (js "abc") (js "short") (js "long text") (by exact ⟨rfl, rfl, rfl, rfl⟩)
      (by exact ⟨by decide, ⟨rfl, rfl, rfl⟩, by decide, by decide, by decide, by decide⟩)
      (by decide)).2.1 rfl (by decide),
   (insufficient_locations_reported _ (exampleEnv exampleConst (some (equator 1))) _ []
      exampleUser (js "abc") (js "short") (js "long text") (by exact ⟨rfl, rfl, rfl, rfl⟩)
      (by exact ⟨by decide, ⟨rfl, rfl, rfl⟩, by decide, by decide, by decide, by decide⟩)
      (by decide)).2.2 (equator 1) rfl (by decide)⟩

theorem maxDist_equator_one :
    maxDist (JsMath.mk Real.pi Real.cos Real.sin Real.sqrt) (equator 1) = some 0 := by
  have : (equator 1 : List (GeoPoint ℝ)) = [{ lat := 0, lng := ((0 : ℕ) : ℝ) }] := rfl
  rw [this, maxDist_singleton, calculateDistance_self]

/-- C10: every record the create path hands to the store has a number of
points within the bounds: whenever the handler answers with a created map,
`MIN_LOCATIONS <= data.length <= MAX_LOCATIONS`, and that map is the one
document added to the store. -/
theorem created_location_count_in_bounds (M : JsMath α) (E : Env α) (req : Request)
    (store : Store α) (status : Nat) (message : String) (doc : MapDoc α)
    (h : (handler M E req store).1 = Outcome.json status message (some doc)) :
    E.mapConst.MIN_LOCATIONS ≤ doc.data.length ∧ doc.data.length ≤ E.mapConst.MAX_LOCATIONS ∧
      (handler M E req store).2 = store ++ [doc] := by
  obtain ⟨user, name, short, long, locationsData, d, hc, hp, hslug, hparse, hmin, hmax, hd, hdoc⟩ :=
    handler_created_inv M E req store status message doc h
  rw [handler_success M E req store user name short long locationsData d hc hp hslug hparse
    hmin hmax hd, hdoc]
  exact ⟨hmin, hmax, rfl⟩

theorem created_location_count_in_bounds_witness :
    onePointConst.MIN_LOCATIONS ≤ (exampleDoc (equator 1) (0 : ℝ)).data.length ∧
    (exampleDoc (equator 1) (0 : ℝ)).data.length ≤ onePointConst.MAX_LOCATIONS ∧
    (handler (JsMath.mk Real.pi Real.cos Real.sin Real.sqrt)
        (exampleEnv onePointConst (some (equator 1)))
        (exampleCreate (.str (js "abc")) (.arr []) (.str (js "short")) (.str (js "long text")))
        []).2 = [] ++ [exampleDoc (equator 1) 0] :=
  created_location_count_in_bounds (JsMath.mk Real.pi Real.cos Real.sin Real.sqrt)
    (exampleEnv onePointConst (some (equator 1)))
    (exampleCreate (.str (js "abc")) (.arr []) (.str (js "short")) (.str (js "long text")))
    [] 200 "Map created" (exampleDoc (equator 1) 0)
    (by
      rw [handler_success _ _ _ [] exampleUser (js "abc") (js "short") (js "long text")
        (equator 1) 0 (by exact ⟨rfl, rfl, rfl, rfl⟩)
        (by exact ⟨by decide, ⟨rfl, rfl, rfl⟩, by decide, by decide, by decide, by decide⟩)
        (by decide) rfl (by decide) (by decide) maxDist_equator_one]
      rfl)

/-- The squared norm of a projected location is `6371 ^ 2`. -/
theorem latLngToCartesian_norm_sq (lat lng : ℝ) :
    (latLngToCartesian (JsMath.mk Real.pi Real.cos Real.sin Real.sqrt) lat lng).x ^ 2 +
      (latLngToCartesian (JsMath.mk Real.pi Real.cos Real.sin Real.sqrt) lat lng).y ^ 2 +
      (latLngToCartesian (JsMath.mk Real.pi Real.cos Real.sin Real.sqrt) lat lng).z ^ 2 =
        6371 ^ 2 := by
  simp only [latLngToCartesian]
  have h1 := Real.cos_sq_add_sin_sq (lat * Real.pi / 180)
  have h2 := Real.cos_sq_add_sin_sq (lng * Real.pi / 180)
  linear_combination (6371 ^ 2 * Real.cos (lat * Real.pi / 180) ^ 2) * h2 + 6371 ^ 2 * h1

/-- C12: over the reals `latLngToCartesian` returns, for every latitude and
longitude, the point `x = R cos(phi) cos(theta)`, `y = R cos(phi) sin(theta)`,
`z = R sin(phi)` with `R = 6371`, `phi = lat * pi / 180` and
`theta = lng * pi / 180`, and this point lies on the sphere of radius 6371
around the origin. -/
theorem latLngToCartesian_on_sphere (lat lng : ℝ) :
    latLngToCartesian (JsMath.mk Real.pi Real.cos Real.sin Real.sqrt) lat lng =
      { x := 6371 * Real.cos (lat * Real.pi / 180) * Real.cos (lng * Real.pi / 180)
        y := 6371 * Real.cos (lat * Real.pi / 180) * Real.sin (lng * Real.pi / 180)
        z := 6371 * Real.sin (lat * Real.pi / 180) } ∧
    (latLngToCartesian (JsMath.mk Real.pi Real.cos Real.sin Real.sqrt) lat lng).x ^ 2 +
      (latLngToCartesian (JsMath.mk Real.pi Real.cos Real.sin Real.sqrt) lat lng).y ^ 2 +
      (latLngToCartesian (JsMath.mk Real.pi Real.cos Real.sin Real.sqrt) lat lng).z ^ 2 =
        6371 ^ 2 :=
  ⟨rfl, latLngToCartesian_norm_sq lat lng⟩

/-- The distance does not depend on the order of its two arguments. -/
theorem calculateDistance_comm (M : JsMath α) (a b : Cartesian α) :
    calculateDistance M a b = calculateDistance M b a := by
  unfold calculateDistance
  ring_nf

/-- The sorted projections of two points: in input order when the first does
not have the larger `x`, exchanged otherwise. -/
theorem sortByX_pair (a b : Cartesian α) :
    sortByX [a, b] = if a.x ≤ b.x then [a, b] else [b, a] := by
  unfold sortByX
  simp only [List.insertionSort, List.orderedInsert, byX, compareX, sub_nonpos]

theorem maxDist_pair (M : JsMath α) (p q : GeoPoint α) :
    maxDist M [p, q] =
      some (calculateDistance M (latLngToCartesian M p.lat p.lng)
        (latLngToCartesian M q.lat q.lng)) := by
  rw [maxDist_eq]
  simp only [project, List.map]
  rw [sortByX_pair]
  by_cases h : (latLngToCartesian M p.lat p.lng).x ≤ (latLngToCartesian M q.lat q.lng).x
  · rw [if_pos h]
    rfl
  · rw [if_neg h]
    simp only [List.head?_cons, List.getLast?_cons_cons, List.getLast?_singleton]
    rw [calculateDistance_comm]

/-- Over the reals `calculateDistance` is the distance of Euclidean 3-space
between the points with the same coordinates. -/
theorem calculateDistance_eq_dist (a b : Cartesian ℝ) :
    calculateDistance (JsMath.mk Real.pi Real.cos Real.sin Real.sqrt) a b =
      dist ((WithLp.equiv 2 (Fin 3 → ℝ)).symm ![a.x, a.y, a.z])
        ((WithLp.equiv 2 (Fin 3 → ℝ)).symm ![b.x, b.y, b.z]) := by
  rw [EuclideanSpace.dist_eq, Fin.sum_univ_three]
  simp [calculateDistance, pow_two, Real.dist_eq, abs_mul_abs_self]

/-- C11: on exactly two points the estimate is the Euclidean distance between
their two projections (the square root of the sum of the squared coordinate
differences, which is the distance of Euclidean 3-space), whichever of the
two has the smaller `x` and in whichever order they are submitted. -/
theorem maxDist_two_points (p q : GeoPoint ℝ) :
    maxDist (JsMath.mk Real.pi Real.cos Real.sin Real.sqrt) [p, q] =
      some (Real.sqrt
        (((latLngToCartesian (JsMath.mk Real.pi Real.cos Real.sin Real.sqrt) p.lat p.lng).x -
            (latLngToCartesian (JsMath.mk Real.pi Real.cos Real.sin Real.sqrt) q.lat q.lng).x) ^ 2 +
          ((latLngToCartesian (JsMath.mk Real.pi Real.cos Real.sin Real.sqrt) p.lat p.lng).y -
            (latLngToCartesian (JsMath.mk Real.pi Real.cos Real.sin Real.sqrt) q.lat q.lng).y) ^ 2 +
          ((latLngToCartesian (JsMath.mk Real.pi Real.cos Real.sin Real.sqrt) p.lat p.lng).z -
            (latLngToCartesian (JsMath.mk Real.pi Real.cos Real.sin Real.sqrt) q.lat q.lng).z) ^ 2)) ∧
    maxDist (JsMath.mk Real.pi Real.cos Real.sin Real.sqrt) [p, q] =
      some (dist
        ((WithLp.equiv 2 (Fin 3 → ℝ)).symm
          ![(latLngToCartesian (JsMath.mk Real.pi Real.cos Real.sin Real.sqrt) p.lat p.lng).x,
            (latLngToCartesian (JsMath.mk Real.pi Real.cos Real.sin Real.sqrt) p.lat p.lng).y,
            (latLngToCartesian (JsMath.mk Real.pi Real.cos Real.sin Real.sqrt) p.lat p.lng).z])
        ((WithLp.equiv 2 (Fin 3 → ℝ)).symm
          ![(latLngToCartesian (JsMath.mk Real.pi Real.cos Real.sin Real.sqrt) q.lat q.lng).x,
            (latLngToCartesian (JsMath.mk Real.pi Real.cos Real.sin Real.sqrt) q.lat q.lng).y,
            (latLngToCartesian (JsMath.mk Real.pi Real.cos Real.sin Real.sqrt) q.lat q.lng).z])) ∧
    maxDist (JsMath.mk Real.pi Real.cos Real.sin Real.sqrt) [q, p] =
      maxDist (JsMath.mk Real.pi Real.cos Real.sin Real.sqrt) [p, q] := by
  refine ⟨?_, ?_, ?_⟩
  · rw [maxDist_pair]
    simp only [calculateDistance, pow_two]
  · rw [maxDist_pair, calculateDistance_eq_dist]
  · rw [maxDist_pair, maxDist_pair, calculateDistance_comm]

theorem handler_delete (M : JsMath α) (E : Env α) (req : Request) (store : Store α)
    (user : User) (h : DeleteBy E req user) :
    handler M E req store = handlerDelete user req.body store := by
  obtain ⟨hm, hs, hu, ha⟩ := h
  have hact : truthy req.body.action = true := by rw [ha]; rfl
  have hc : strictEqStr req.body.action (js "create") = false := by
    rw [ha]; decide
  have hd : strictEqStr req.body.action (js "delete") = true := by
    rw [ha]; simp [strictEqStr]
  unfold handler
  simp [hm, hs, hu, hact, hc, hd]

theorem truthy_str {s : JsString} (h : s ≠ []) : truthy (.str s) = true := by
  cases s with
  | nil => exact absurd rfl h
  | cons a t => rfl

theorem findById_str (id : JsString) (store : Store α) :
    Map.findById (.str id) store = store.find? (fun d => d._id == id) := rfl

theorem mem_remove (map d : MapDoc α) (store : Store α) :
    d ∈ map.remove store ↔ d ∈ store ∧ d._id ≠ map._id := by
  unfold MapDoc.remove
  simp [List.mem_filter]

theorem findById_remove (map : MapDoc α) (store : Store α) :
    Map.findById (.str map._id) (map.remove store) = none := by
  rw [findById_str, List.find?_eq_none]
  intro d hd
  have := ((mem_remove map d store).mp hd).2
  simpa using this

theorem findById_some_id {id : JsString} {store : Store α} {map : MapDoc α}
    (h : Map.findById (.str id) store = some map) : map ∈ store ∧ map._id = id := by
  rw [findById_str] at h
  exact ⟨List.mem_of_find?_eq_some h, by simpa using List.find?_some h⟩

/-- C13: for every store, known user and non-empty `mapId`, the delete action
answers 404 (NotFound) when no map has that id; answers 403 (Forbidden) and
leaves the store as it was when the map with that id was created by another
user; and otherwise answers 200, after which no map is retrievable by that
id, the maps with other ids are all still there, and, ids being unique, the
map found is the only one removed. -/
theorem delete_by_owner_only (M : JsMath α) (E : Env α) (req : Request) (store : Store α)
    (user : User) (id : JsString) (h : DeleteBy E req user)
    (hid : req.body.mapId = .str id) (hne : id ≠ []) :
    ((∀ d ∈ store, d._id ≠ id) →
      handler M E req store = (Outcome.json 404 "Map not found" none, store)) ∧
    (∀ map : MapDoc α, Map.findById (.str id) store = some map →
      map.created_by ≠ user._id →
      handler M E req store =
        (Outcome.json 403 "You are not authorized to delete this map" none, store)) ∧
    (∀ map : MapDoc α, Map.findById (.str id) store = some map →
      map.created_by = user._id →
      (handler M E req store).1 = Outcome.json 200 "Map deleted" none ∧
      Map.findById (.str id) (handler M E req store).2 = none ∧
      (∀ d : MapDoc α, d ∈ (handler M E req store).2 ↔ d ∈ store ∧ d._id ≠ id) ∧
      ((store.map (fun d => d._id)).Nodup →
        ∀ d ∈ store, d ≠ map → d ∈ (handler M E req store).2)) := by
  rw [handler_delete M E req store user h]
  unfold handlerDelete
  simp only [hid, truthy_str hne, Bool.not_true, Bool.false_eq_true, if_false]
  refine ⟨?_, ?_, ?_⟩
  · intro hnone
    have : Map.findById (.str id) store = none := by
      rw [findById_str, List.find?_eq_none]
      intro d hd
      simpa using hnone d hd
    simp only [this]
  · intro map hfind hother
    simp only [hfind]
    rw [if_pos (by simpa using hother)]
  · intro map hfind hown
    simp only [hfind]
    rw [if_neg (by simp [hown])]
    obtain ⟨hmem, hmid⟩ := findById_some_id hfind
    refine ⟨rfl, ?_, ?_, ?_⟩
    · rw [← hmid]
      exact findById_remove map store
    · intro d
      rw [← hmid]
      exact mem_remove map d store
    · intro hnd d hd hdm
      refine (mem_remove map d store).mpr ⟨hd, ?_⟩
      intro hsame
      exact hdm (List.inj_on_of_nodup_map hnd hd hmem hsame)

theorem delete_by_owner_only_witness :
    handler (JsMath.mk Real.pi Real.cos Real.sin Real.sqrt)
        (exampleEnv exampleConst none) (exampleDelete (.str (js "zz"))) exampleStore =
      (Outcome.json 404 "Map not found" none, exampleStore) ∧
    handler (JsMath.mk Real.pi Real.cos Real.sin Real.sqrt)
        (exampleEnv exampleConst none) (exampleDelete (.str (js "m1"))) exampleStore =
      (Outcome.json 403 "You are not authorized to delete this map" none, exampleStore) ∧
    (handler (JsMath.mk Real.pi Real.cos Real.sin Real.sqrt)
        (exampleEnv exampleConst none) (exampleDelete (.str (js "m0"))) exampleStore).1 =
      Outcome.json 200 "Map deleted" none ∧
    Map.findById (.str (js "m0"))
      (handler (JsMath.mk Real.pi Real.cos Real.sin Real.sqrt)
        (exampleEnv exampleConst none) (exampleDelete (.str (js "m0"))) exampleStore).2 =
      none := by
  refine ⟨?_, ?_, ?_, ?_⟩
  · exact (delete_by_owner_only _ _ _ exampleStore exampleUser (js "zz")
      (by exact ⟨rfl, rfl, rfl, rfl⟩) rfl (by decide)).1 (by decide)
  · exact (delete_by_owner_only _ _ _ exampleStore exampleUser (js "m1")
      (by exact ⟨rfl, rfl, rfl, rfl⟩) rfl (by decide)).2.1
      { exampleDoc [] 0 with _id := js "m1", created_by := js "u2" } rfl (by decide)
  · exact ((delete_by_owner_only _ _ _ exampleStore exampleUser (js "m0")
      (by exact ⟨rfl, rfl, rfl, rfl⟩) rfl (by decide)).2.2
      (exampleDoc [] 0) rfl rfl).1
  · exact ((delete_by_owner_only _ _ _ exampleStore exampleUser (js "m0")
      (by exact ⟨rfl, rfl, rfl, rfl⟩) rfl (by decide)).2.2
      (exampleDoc [] 0) rfl rfl).2.1

theorem handlerDelete_store_eq_or_ok (user : User) (b : Body) (store : Store α) :
    (handlerDelete user b store).2 = store ∨
      ∃ message map, (handlerDelete user b store).1 = Outcome.json 200 message map := by
  unfold handlerDelete
  split
  · exact Or.inl rfl
  · split
    · exact Or.inl rfl
    · split
      · exact Or.inl rfl
      · exact Or.inr ⟨_, _, rfl⟩

theorem handlerCreate_store_eq_or_ok (M : JsMath α) (E : Env α) (user : User) (b : Body)
    (store : Store α) :
    (handlerCreate M E user b store).2 = store ∨
      ∃ message map, (handlerCreate M E user b store).1 = Outcome.json 200 message map := by
  by_cases hp : AllPresent b
  swap
  · rw [handlerCreate_missing M E user b store hp]
    exact Or.inl rfl
  rcases handlerCreate_text_or_throws M E user b store hp with ⟨name, short, long, htf⟩ | ht
  swap
  · rw [ht]
    exact Or.inl rfl
  rw [handlerCreate_text M E user b store name short long hp htf]
  repeat' split
  all_goals first
    | exact Or.inl rfl
    | exact Or.inr ⟨_, _, rfl⟩

/-- The store is changed only by calls that are answered 200. -/
theorem handler_store_eq_or_ok (M : JsMath α) (E : Env α) (req : Request) (store : Store α) :
    (handler M E req store).2 = store ∨
      ∃ message map, (handler M E req store).1 = Outcome.json 200 message map := by
  unfold handler
  split
  · exact Or.inl rfl
  · simp only []
    split
    · exact Or.inl rfl
    · split
      · exact Or.inl rfl
      · split
        · exact handlerCreate_store_eq_or_ok M E _ req.body store
        · split
          · exact handlerDelete_store_eq_or_ok _ req.body store
          · exact Or.inl rfl

theorem json_status_ne (s t : Nat) (m n : String) (a b : Option (MapDoc α)) (h : s ≠ t) :
    Outcome.json s m a ≠ Outcome.json t n b := by
  intro he
  injection he with hs _ _
  exact h hs

/-- A validation error is a response with status 400 and no map. -/
theorem validation_error_shape (c : MapConst) (o : Outcome α) (h : IsValidationError c o) :
    ∃ message, o = Outcome.json 400 message none := by
  rcases h with h | h | h | h | h | h | ⟨got, h⟩ | h <;> exact ⟨_, h⟩

/-- C14: a create request that fails a validation check persists nothing:
whenever the outcome of the handler is one of the validation errors, the
store after the call is the store before it and the answer carries no
created map (`Map.create` was not called). -/
theorem validation_failure_persists_nothing (M : JsMath α) (E : Env α) (req : Request)
    (store : Store α) (h : IsValidationError E.mapConst (handler M E req store).1) :
    (handler M E req store).2 = store ∧
      ∀ (status : Nat) (message : String) (doc : MapDoc α),
        (handler M E req store).1 ≠ Outcome.json status message (some doc) := by
  obtain ⟨msg, hmsg⟩ := validation_error_shape E.mapConst _ h
  refine ⟨?_, ?_⟩
  · rcases handler_store_eq_or_ok M E req store with hs | ⟨m, map, hok⟩
    · exact hs
    · rw [hmsg] at hok
      exact absurd hok (json_status_ne _ _ _ _ _ _ (by decide))
  · intro status message doc hdoc
    rw [hmsg] at hdoc
    injection hdoc with _ _ hmap
    exact Option.noConfusion hmap

theorem validation_failure_persists_nothing_witness :
    (handler (JsMath.mk Real.pi Real.cos Real.sin Real.sqrt)
        (exampleEnv exampleConst (some (equator 4)))
        (exampleCreate (.str (js "ab")) (.arr []) (.str (js "short")) (.str (js "long text")))
        exampleStore).2 = exampleStore ∧
      ∀ (status : Nat) (message : String) (doc : MapDoc ℝ),
        (handler (JsMath.mk Real.pi Real.cos Real.sin Real.sqrt)
          (exampleEnv exampleConst (some (equator 4)))
          (exampleCreate (.str (js "ab")) (.arr []) (.str (js "short")) (.str (js "long text")))
          exampleStore).1 ≠ Outcome.json status message (some doc) :=
  validation_failure_persists_nothing _ _ _ exampleStore
    (by
      rw [handler_create _ _ _ _ exampleUser (by exact ⟨rfl, rfl, rfl, rfl⟩),
        handlerCreate_text _ _ _ _ _ (js "ab") (js "short") (js "long text") (by decide)
          (by exact ⟨rfl, rfl, rfl⟩), if_pos (by decide)]
      exact Or.inr (Or.inl rfl))

/-- Over the reals, an estimate that is defined is not negative. -/
theorem maxDist_nonneg (l : List (GeoPoint ℝ)) (d : ℝ)
    (h : maxDist (JsMath.mk Real.pi Real.cos Real.sin Real.sqrt) l = some d) : 0 ≤ d := by
  by_cases hl : l = []
  · rw [hl, maxDist_nil] at h
    exact Option.noConfusion h
  · obtain ⟨a, z, _, _, hd⟩ :=
      maxDist_of_ne_nil (JsMath.mk Real.pi Real.cos Real.sin Real.sqrt) l hl
    rw [hd] at h
    rw [← Option.some.inj h]
    exact calculateDistance_nonneg a z

theorem maxDist_antipodes :
    maxDist (JsMath.mk Real.pi Real.cos Real.sin Real.sqrt) antipodes = some 12742 := by
  rw [maxDist_eq, project_antipodes]
  have hs : sortByX [({ x := 6371, y := 0, z := 0 } : Cartesian ℝ),
      { x := -6371, y := 0, z := 0 }] =
      [{ x := -6371, y := 0, z := 0 }, { x := 6371, y := 0, z := 0 }] := by
    rw [sortByX_pair, if_neg (by norm_num)]
  rw [hs]
  simp only [List.head?_cons, List.getLast?_cons_cons, List.getLast?_singleton,
    calculateDistance]
  have : ((-6371 : ℝ) - 6371) * (-6371 - 6371) + (0 - 0) * (0 - 0) + (0 - 0) * (0 - 0) =
      12742 * 12742 := by norm_num
  rw [this, Real.sqrt_mul_self (by norm_num)]

/-- The example request for the name `abc` on two antipodal points is
answered 200 with the estimate 12742. -/
theorem handler_antipodes :
    handler (JsMath.mk Real.pi Real.cos Real.sin Real.sqrt)
        (exampleEnv exampleConst (some antipodes))
        (exampleCreate (.str (js "abc")) (.arr []) (.str (js "short")) (.str (js "long text")))
        [] =
      (Outcome.json 200 "Map created" (some (exampleDoc antipodes 12742)),
        [exampleDoc antipodes 12742]) := by
  rw [handler_success _ _ _ [] exampleUser (js "abc") (js "short") (js "long text")
    antipodes 12742 (by exact ⟨rfl, rfl, rfl, rfl⟩)
    (by exact ⟨by decide, ⟨rfl, rfl, rfl⟩, by decide, by decide, by decide, by decide⟩)
    (by decide) rfl (by decide) (by decide) maxDist_antipodes]
  rfl

/-- C15: for every successfully created map, the `maxDist` of the document
that is stored is at least 0 (over the reals). -/
theorem created_maxDist_nonneg (E : Env ℝ) (req : Request) (store : Store ℝ) (status : Nat)
    (message : String) (doc : MapDoc ℝ)
    (h : (handler (JsMath.mk Real.pi Real.cos Real.sin Real.sqrt) E req store).1 =
      Outcome.json status message (some doc)) :
    doc ∈ (handler (JsMath.mk Real.pi Real.cos Real.sin Real.sqrt) E req store).2 ∧
      0 ≤ doc.maxDist := by
  obtain ⟨user, name, short, long, locationsData, d, hc, hp, hslug, hparse, hmin, hmax, hd, hdoc⟩ :=
    handler_created_inv _ E req store status message doc h
  rw [handler_success _ E req store user name short long locationsData d hc hp hslug hparse
    hmin hmax hd, hdoc]
  exact ⟨by simp, maxDist_nonneg locationsData d hd⟩

theorem created_maxDist_nonneg_witness :
    exampleDoc antipodes (12742 : ℝ) ∈
        (handler (JsMath.mk Real.pi Real.cos Real.sin Real.sqrt)
          (exampleEnv exampleConst (some antipodes))
          (exampleCreate (.str (js "abc")) (.arr []) (.str (js "short"))
            (.str (js "long text"))) []).2 ∧
      0 ≤ (exampleDoc antipodes (12742 : ℝ)).maxDist :=
  created_maxDist_nonneg _ _ [] 200 "Map created" (exampleDoc antipodes 12742)
    (by rw [handler_antipodes])

theorem le_foldr_max (l : List α) (x : α) (h : x ∈ l) : x ≤ l.foldr max 0 := by
  induction l with
  | nil => simp at h
  | cons a t ih =>
    rcases List.mem_cons.mp h with rfl | ht
    · exact le_max_left _ _
    · exact le_trans (ih ht) (le_max_right _ _)

/-- Every distance between two points of the list is at most the diameter. -/
theorem calculateDistance_le_maxPairwise (M : JsMath α) (pts : List (Cartesian α))
    (a b : Cartesian α) (ha : a ∈ pts) (hb : b ∈ pts) :
    calculateDistance M a b ≤ maxPairwise M pts := by
  apply le_foldr_max
  unfold pairwiseDistances
  rw [List.mem_flatMap]
  exact ⟨a, ha, List.mem_map.mpr ⟨b, hb, rfl⟩⟩

theorem project_sharedX :
    project (JsMath.mk Real.pi Real.cos Real.sin Real.sqrt) sharedX =
      [{ x := 0, y := 6371, z := 0 }, { x := 0, y := -6371, z := 0 },
        { x := 0, y := 0, z := 6371 }] := by
  simp only [project, sharedX, List.map, project_equator_east, project_equator_west,
    project_north_pole]

/-- C17: the estimate can be strictly smaller than the true spread: the three
valid locations `(0, 90)`, `(0, -90)`, `(90, 0)` have the estimate
`sqrt (6371^2 + 6371^2)`, while the first two are `2 * 6371` apart. -/
theorem maxDist_can_underestimate :
    ∃ l : List (GeoPoint ℝ), (∀ p ∈ l, ValidGeo p) ∧
      ∃ d : ℝ, maxDist (JsMath.mk Real.pi Real.cos Real.sin Real.sqrt) l = some d ∧
        d < maxPairwise (JsMath.mk Real.pi Real.cos Real.sin Real.sqrt)
          (project (JsMath.mk Real.pi Real.cos Real.sin Real.sqrt) l) := by
  refine ⟨sharedX, ?_, _, maxDist_sharedX, ?_⟩
  · intro p hp
    simp only [sharedX, List.mem_cons, List.mem_singleton, List.not_mem_nil, or_false] at hp
    rcases hp with rfl | rfl | rfl <;> (unfold ValidGeo; norm_num)
  · have hle := calculateDistance_le_maxPairwise
      (JsMath.mk Real.pi Real.cos Real.sin Real.sqrt)
      (project (JsMath.mk Real.pi Real.cos Real.sin Real.sqrt) sharedX)
      { x := 0, y := 6371, z := 0 } { x := 0, y := -6371, z := 0 }
      (by rw [project_sharedX]; simp) (by rw [project_sharedX]; simp)
    refine lt_of_lt_of_le ?_ hle
    simp only [calculateDistance]
    apply Real.sqrt_lt_sqrt
    · norm_num
    · norm_num

/-- Two points of the sphere of radius 6371 are at most 12742 apart. -/
theorem calculateDistance_le_diameter (a b : Cartesian ℝ)
    (ha : a.x ^ 2 + a.y ^ 2 + a.z ^ 2 = 6371 ^ 2)
    (hb : b.x ^ 2 + b.y ^ 2 + b.z ^ 2 = 6371 ^ 2) :
    calculateDistance (JsMath.mk Real.pi Real.cos Real.sin Real.sqrt) a b ≤ 12742 := by
  simp only [calculateDistance]
  rw [Real.sqrt_le_iff]
  refine ⟨by norm_num, ?_⟩
  nlinarith [sq_nonneg (a.x + b.x), sq_nonneg (a.y + b.y), sq_nonneg (a.z + b.z)]

theorem mem_project_norm_sq (l : List (GeoPoint ℝ)) (c : Cartesian ℝ)
    (h : c ∈ project (JsMath.mk Real.pi Real.cos Real.sin Real.sqrt) l) :
    c.x ^ 2 + c.y ^ 2 + c.z ^ 2 = 6371 ^ 2 := by
  unfold project at h
  obtain ⟨p, _, rfl⟩ := List.mem_map.mp h
  exact latLngToCartesian_norm_sq p.lat p.lng

/-- An estimate that is defined is the distance between two of the projected
points. -/
theorem maxDist_is_pair_distance (M : JsMath α) (l : List (GeoPoint α)) (d : α)
    (h : maxDist M l = some d) :
    ∃ a ∈ project M l, ∃ b ∈ project M l, d = calculateDistance M a b := by
  by_cases hl : l = []
  · rw [hl, maxDist_nil] at h
    exact Option.noConfusion h
  · obtain ⟨a, z, ha, hz, hd⟩ := maxDist_of_ne_nil M l hl
    rw [hd] at h
    exact ⟨a, (sortByX_perm _).subset (mem_of_head_eq_some ha), z,
      (sortByX_perm _).subset (List.mem_of_getLast?_eq_some hz), (Option.some.inj h).symm⟩

/-- C20: for every successfully created map, the stored `maxDist` is at most
the diameter `2 * 6371 = 12742` of the sphere and does not exceed the maximum
pairwise Euclidean distance between the projections of the stored points
(over the reals). -/
theorem created_maxDist_bounded (E : Env ℝ) (req : Request) (store : Store ℝ) (status : Nat)
    (message : String) (doc : MapDoc ℝ)
    (h : (handler (JsMath.mk Real.pi Real.cos Real.sin Real.sqrt) E req store).1 =
      Outcome.json status message (some doc)) :
    doc.maxDist ≤ 2 * 6371 ∧ doc.maxDist ≤ 12742 ∧
      doc.maxDist ≤ maxPairwise (JsMath.mk Real.pi Real.cos Real.sin Real.sqrt)
        (project (JsMath.mk Real.pi Real.cos Real.sin Real.sqrt) doc.data) := by
  obtain ⟨user, name, short, long, locationsData, d, _, _, _, _, _, _, hd, hdoc⟩ :=
    handler_created_inv _ E req store status message doc h
  obtain ⟨a, ha, b, hb, hab⟩ := maxDist_is_pair_distance _ locationsData d hd
  rw [hdoc]
  simp only
  rw [hab]
  have h2 := calculateDistance_le_diameter a b (mem_project_norm_sq locationsData a ha)
    (mem_project_norm_sq locationsData b hb)
  refine ⟨by linarith, h2, calculateDistance_le_maxPairwise _ _ a b ha hb⟩

theorem created_maxDist_bounded_witness :
    (exampleDoc antipodes (12742 : ℝ)).maxDist ≤ 2 * 6371 ∧
      (exampleDoc antipodes (12742 : ℝ)).maxDist ≤ 12742 ∧
      (exampleDoc antipodes (12742 : ℝ)).maxDist ≤
        maxPairwise (JsMath.mk Real.pi Real.cos Real.sin Real.sqrt)
          (project (JsMath.mk Real.pi Real.cos Real.sin Real.sqrt)
            (exampleDoc antipodes (12742 : ℝ)).data) :=
  created_maxDist_bounded (exampleEnv exampleConst (some antipodes))
    (exampleCreate (.str (js "abc")) (.arr []) (.str (js "short")) (.str (js "long text")))
    [] 200 "Map created" (exampleDoc antipodes 12742) (by rw [handler_antipodes])

/-- C18: on success the record handed to the store is determined by the
validated inputs: `name`, `description_short` and `description_long` are the
trimmed strings of the request, `slug` is `generateSlug` of the trimmed name,
`created_by` is the id of the user found for the secret, and `data` is the
list returned by the parser, in its order (the sort acts on the projected
copy only). The answer is 200 `Map created`. -/
theorem created_record_fields (M : JsMath α) (E : Env α) (req : Request) (store : Store α)
    (status : Nat) (message : String) (doc : MapDoc α)
    (h : (handler M E req store).1 = Outcome.json status message (some doc)) :
    ∃ (user : User) (name short long : JsString) (locationsData : List (GeoPoint α)),
      E.findOne req.body.secret = some user ∧
      req.body.name = .str name ∧
      req.body.description_short = .str short ∧
      req.body.description_long = .str long ∧
      E.parseMapData req.body.data = some locationsData ∧
      doc.name = trim name ∧
      doc.description_short = trim short ∧
      doc.description_long = trim long ∧
      doc.slug = E.generateSlug (trim name) ∧
      doc.created_by = user._id ∧
      doc.data = locationsData ∧
      maxDist M locationsData = some doc.maxDist ∧
      status = 200 ∧ message = "Map created" := by
  obtain ⟨user, name, short, long, locationsData, d, hc, hp, hslug, hparse, hmin, hmax, hd, hdoc⟩ :=
    handler_created_inv M E req store status message doc h
  rw [handler_success M E req store user name short long locationsData d hc hp hslug hparse
    hmin hmax hd] at h
  simp only [Outcome.json.injEq] at h
  refine ⟨user, name, short, long, locationsData, hc.2.2.1, hp.2.1.1, hp.2.1.2.1, hp.2.1.2.2,
    hparse, ?_, ?_, ?_, ?_, ?_, ?_, ?_, h.1.symm, h.2.1.symm⟩ <;> rw [hdoc]
  exact hd

theorem created_record_fields_witness :
    ∃ (user : User) (name short long : JsString) (locationsData : List (GeoPoint ℝ)),
      (exampleEnv exampleConst (some antipodes) : Env ℝ).findOne
        (exampleCreate (.str (js " abc ")) (.arr []) (.str (js "short "))
          (.str (js "long text"))).body.secret = some user ∧
      (exampleCreate (.str (js " abc ")) (.arr []) (.str (js "short "))
        (.str (js "long text"))).body.name = .str name ∧
      (exampleCreate (.str (js " abc ")) (.arr []) (.str (js "short "))
        (.str (js "long text"))).body.description_short = .str short ∧
      (exampleCreate (.str (js " abc ")) (.arr []) (.str (js "short "))
        (.str (js "long text"))).body.description_long = .str long ∧
      (exampleEnv exampleConst (some antipodes) : Env ℝ).parseMapData
        (exampleCreate (.str (js " abc ")) (.arr []) (.str (js "short "))
          (.str (js "long text"))).body.data = some locationsData ∧
      (exampleDoc antipodes (12742 : ℝ)).name = trim name ∧
      (exampleDoc antipodes (12742 : ℝ)).description_short = trim short ∧
      (exampleDoc antipodes (12742 : ℝ)).description_long = trim long ∧
      (exampleDoc antipodes (12742 : ℝ)).slug =
        (exampleEnv exampleConst (some antipodes) : Env ℝ).generateSlug (trim name) ∧
      (exampleDoc antipodes (12742 : ℝ)).created_by = user._id ∧
      (exampleDoc antipodes (12742 : ℝ)).data = locationsData ∧
      maxDist (JsMath.mk Real.pi Real.cos Real.sin Real.sqrt) locationsData =
        some (exampleDoc antipodes (12742 : ℝ)).maxDist ∧
      200 = 200 ∧ "Map created" = "Map created" :=
  created_record_fields (JsMath.mk Real.pi Real.cos Real.sin Real.sqrt)
    (exampleEnv exampleConst (some antipodes))
    (exampleCreate (.str (js " abc ")) (.arr []) (.str (js "short ")) (.str (js "long text")))
    [] 200 "Map created" (exampleDoc antipodes 12742)
    (by
      rw [handler_success _ _ _ [] exampleUser (js " abc ") (js "short ") (js "long text")
        antipodes 12742 (by exact ⟨rfl, rfl, rfl, rfl⟩)
        (by exact ⟨by decide, ⟨rfl, rfl, rfl⟩, by decide, by decide, by decide, by decide⟩)
        (by decide) rfl (by decide) (by decide) maxDist_antipodes]
      rfl)

/-- C19 (what the code does): in a create request from a known user in which
the four fields are present and the name, the short or the long description
is not a string, the call of `trim` in lines 54-56 throws: the handler ends
in an uncaught exception, the store as it was, and the `typeof` tests of
lines 59, 64 and 69 are never reached. -/
theorem non_string_field_throws (M : JsMath α) (E : Env α) (req : Request) (store : Store α)
    (user : User) (h : CreateBy E req user) (hp : AllPresent req.body)
    (hns : (∀ s, req.body.name ≠ .str s) ∨ (∀ s, req.body.description_short ≠ .str s) ∨
      (∀ s, req.body.description_long ≠ .str s)) :
    handler M E req store = (Outcome.throws, store) := by
  rw [handler_create M E req store user h]
  rcases handlerCreate_text_or_throws M E user req.body store hp with
    ⟨name, short, long, hn, hs, hl⟩ | ht
  · rcases hns with h1 | h2 | h3
    · exact absurd hn (h1 name)
    · exact absurd hs (h2 short)
    · exact absurd hl (h3 long)
  · exact ht

theorem non_string_field_throws_witness :
    handler (JsMath.mk Real.pi Real.cos Real.sin Real.sqrt)
        (exampleEnv exampleConst (some (equator 2)))
        (exampleCreate (.num 5) (.arr []) (.str (js "short")) (.str (js "long text")))
        [] = (Outcome.throws, []) ∧
    handler (JsMath.mk Real.pi Real.cos Real.sin Real.sqrt)
        (exampleEnv exampleConst (some (equator 2)))
        (exampleCreate (.str (js "abc")) (.arr []) (.obj []) (.str (js "long text")))
        [] = (Outcome.throws, []) ∧
    handler (JsMath.mk Real.pi Real.cos Real.sin Real.sqrt)
        (exampleEnv exampleConst (some (equator 2)))
        (exampleCreate (.str (js "abc")) (.arr []) (.str (js "short")) (.bool true))
        [] = (Outcome.throws, []) :=
  ⟨non_string_field_throws _ _ _ [] exampleUser (by exact ⟨rfl, rfl, rfl, rfl⟩) (by decide)
      (Or.inl (fun _ hs => JsVal.noConfusion hs)),
   non_string_field_throws _ _ _ [] exampleUser (by exact ⟨rfl, rfl, rfl, rfl⟩) (by decide)
      (Or.inr (Or.inl (fun _ hs => JsVal.noConfusion hs))),
   non_string_field_throws _ _ _ [] exampleUser (by exact ⟨rfl, rfl, rfl, rfl⟩) (by decide)
      (Or.inr (Or.inr (fun _ hs => JsVal.noConfusion hs)))⟩

theorem byX_iff (a b : Cartesian α) : byX a b ↔ a.x ≤ b.x := by
  unfold byX compareX
  exact sub_nonpos

theorem orderedInsert_eq_append (a : Cartesian α) (s : List (Cartesian α))
    (h : ∀ b ∈ s, b.x < a.x) : List.orderedInsert byX a s = s ++ [a] := by
  induction s with
  | nil => rfl
  | cons b t ih =>
    have hb : ¬ byX a b := by
      rw [byX_iff]
      exact not_le.mpr (h b (List.mem_cons_self _ _))
    rw [List.orderedInsert, if_neg hb, ih (fun c hc => h c (List.mem_cons_of_mem _ hc))]
    rfl

theorem orderedInsert_ne_nil (a : Cartesian α) (s : List (Cartesian α)) :
    List.orderedInsert byX a s ≠ [] := by
  cases s with
  | nil => simp
  | cons b t =>
    rw [List.orderedInsert]
    split <;> simp

theorem getLastOpt_cons_of_ne_nil {β : Type} (b : β) {s : List β} (h : s ≠ []) :
    (b :: s).getLast? = s.getLast? := by
  cases s with
  | nil => exact absurd rfl h
  | cons c t => exact List.getLast?_cons_cons

/-- Inserting an element that does not exceed the last one keeps the last
element. -/
theorem orderedInsert_getLast (c z : Cartesian α) (s : List (Cartesian α))
    (hz : s.getLast? = some z) (hc : c.x ≤ z.x) :
    (List.orderedInsert byX c s).getLast? = some z := by
  induction s with
  | nil => simp at hz
  | cons b t ih =>
    rw [List.orderedInsert]
    by_cases hb : byX c b
    · rw [if_pos hb, List.getLast?_cons_cons]
      exact hz
    · rw [if_neg hb]
      cases t with
      | nil =>
        simp only [List.getLast?_singleton, Option.some.injEq] at hz
        rw [hz, byX_iff] at hb
        exact absurd hc hb
      | cons b2 t2 =>
        rw [List.getLast?_cons_cons] at hz
        rw [getLastOpt_cons_of_ne_nil b (orderedInsert_ne_nil c (b2 :: t2))]
        exact ih hz

/-- The first element of the sorted list is the earliest element of the input
that has the minimum `x`. -/
theorem sortByX_head (pre post : List (Cartesian α)) (a : Cartesian α)
    (hpre : ∀ c ∈ pre, a.x < c.x) (hpost : ∀ c ∈ post, a.x ≤ c.x) :
    (sortByX (pre ++ a :: post)).head? = some a := by
  induction pre with
  | nil =>
    show (List.orderedInsert byX a (sortByX post)).head? = some a
    cases hs : sortByX post with
    | nil => rfl
    | cons b t =>
      have hb : b ∈ post := (sortByX_perm post).subset (by rw [hs]; exact List.mem_cons_self _ _)
      rw [List.orderedInsert, if_pos ((byX_iff a b).mpr (hpost b hb))]
      rfl
  | cons c pre' ih =>
    show (List.orderedInsert byX c (sortByX (pre' ++ a :: post))).head? = some a
    have ih' := ih (fun d hd => hpre d (List.mem_cons_of_mem _ hd))
    cases hs : sortByX (pre' ++ a :: post) with
    | nil => rw [hs] at ih'; simp at ih'
    | cons b t =>
      rw [hs] at ih'
      simp only [List.head?_cons, Option.some.injEq] at ih'
      subst ih'
      have hcb : ¬ byX c b := by
        rw [byX_iff]
        exact not_le.mpr (hpre c (List.mem_cons_self _ _))
      rw [List.orderedInsert, if_neg hcb]
      rfl

/-- The last element of the sorted list is the latest element of the input
that has the maximum `x`. -/
theorem sortByX_getLast (pre post : List (Cartesian α)) (z : Cartesian α)
    (hpre : ∀ c ∈ pre, c.x ≤ z.x) (hpost : ∀ c ∈ post, c.x < z.x) :
    (sortByX (pre ++ z :: post)).getLast? = some z := by
  induction pre with
  | nil =>
    show (List.orderedInsert byX z (sortByX post)).getLast? = some z
    rw [orderedInsert_eq_append z (sortByX post)
      (fun b hb => hpost b ((sortByX_perm post).subset hb))]
    simp
  | cons c pre' ih =>
    show (List.orderedInsert byX c (sortByX (pre' ++ z :: post))).getLast? = some z
    exact orderedInsert_getLast c z _ (ih (fun d hd => hpre d (List.mem_cons_of_mem _ hd)))
      (hpre c (List.mem_cons_self _ _))

theorem project_sixty_east :
    latLngToCartesian (JsMath.mk Real.pi Real.cos Real.sin Real.sqrt) 0 60 =
      { x := 6371 / 2, y := 6371 * (Real.sqrt 3 / 2), z := 0 } := by
  have h : (60 : ℝ) * Real.pi / 180 = Real.pi / 3 := by ring
  simp only [latLngToCartesian, h, zero_mul, zero_div, Real.cos_zero, Real.sin_zero,
    Real.cos_pi_div_three, Real.sin_pi_div_three]
  norm_num

theorem project_sixty_west :
    latLngToCartesian (JsMath.mk Real.pi Real.cos Real.sin Real.sqrt) 0 (-60) =
      { x := 6371 / 2, y := -(6371 * (Real.sqrt 3 / 2)), z := 0 } := by
  have h : (-60 : ℝ) * Real.pi / 180 = -(Real.pi / 3) := by ring
  simp only [latLngToCartesian, h, zero_mul, zero_div, Real.cos_zero, Real.sin_zero,
    Real.cos_neg, Real.sin_neg, Real.cos_pi_div_three, Real.sin_pi_div_three]
  norm_num

theorem project_tieAtMax :
    project (JsMath.mk Real.pi Real.cos Real.sin Real.sqrt) tieAtMax =
      [{ x := 0, y := 6371, z := 0 },
        { x := 6371 / 2, y := 6371 * (Real.sqrt 3 / 2), z := 0 },
        { x := 6371 / 2, y := -(6371 * (Real.sqrt 3 / 2)), z := 0 }] := by
  simp only [project, tieAtMax, List.map, project_equator_east, project_sixty_east,
    project_sixty_west]

/-- C16 (counterexample): the projections of `(0, 90)`, `(0, 60)`, `(0, -60)`
have `x = 0`, `6371 / 2`, `6371 / 2`. The maximum is shared by the second and
the third; the estimate is the distance from the first to the third, the
later of the two, and this is not the distance from the first to the
second. -/
theorem tie_at_maximum_takes_latest :
    project (JsMath.mk Real.pi Real.cos Real.sin Real.sqrt) tieAtMax =
      [{ x := 0, y := 6371, z := 0 },
        { x := 6371 / 2, y := 6371 * (Real.sqrt 3 / 2), z := 0 },
        { x := 6371 / 2, y := -(6371 * (Real.sqrt 3 / 2)), z := 0 }] ∧
    maxDist (JsMath.mk Real.pi Real.cos Real.sin Real.sqrt) tieAtMax =
      some (calculateDistance (JsMath.mk Real.pi Real.cos Real.sin Real.sqrt)
        { x := 0, y := 6371, z := 0 }
        { x := 6371 / 2, y := -(6371 * (Real.sqrt 3 / 2)), z := 0 }) ∧
    calculateDistance (JsMath.mk Real.pi Real.cos Real.sin Real.sqrt)
        { x := 0, y := 6371, z := 0 }
        { x := 6371 / 2, y := -(6371 * (Real.sqrt 3 / 2)), z := 0 } ≠
      calculateDistance (JsMath.mk Real.pi Real.cos Real.sin Real.sqrt)
        { x := 0, y := 6371, z := 0 }
        { x := 6371 / 2, y := 6371 * (Real.sqrt 3 / 2), z := 0 } := by
  refine ⟨project_tieAtMax, ?_, ?_⟩
  · rw [maxDist_eq, project_tieAtMax]
    have hh := sortByX_head ([] : List (Cartesian ℝ))
      [{ x := 6371 / 2, y := 6371 * (Real.sqrt 3 / 2), z := 0 },
        { x := 6371 / 2, y := -(6371 * (Real.sqrt 3 / 2)), z := 0 }]
      { x := 0, y := 6371, z := 0 } (by simp) (by simp; norm_num)
    have hl := sortByX_getLast
      [({ x := 0, y := 6371, z := 0 } : Cartesian ℝ),
        { x := 6371 / 2, y := 6371 * (Real.sqrt 3 / 2), z := 0 }] []
      { x := 6371 / 2, y := -(6371 * (Real.sqrt 3 / 2)), z := 0 } (by simp; norm_num) (by simp)
    simp only [List.nil_append, List.cons_append] at hh hl
    rw [hh, hl]
  · have hs : (0 : ℝ) < Real.sqrt 3 := Real.sqrt_pos.mpr (by norm_num)
    simp only [calculateDistance]
    intro h
    rw [Real.sqrt_inj
      (add_nonneg (add_nonneg (mul_self_nonneg _) (mul_self_nonneg _)) (mul_self_nonneg _))
      (add_nonneg (add_nonneg (mul_self_nonneg _) (mul_self_nonneg _)) (mul_self_nonneg _))] at h
    nlinarith

/-- C16 (amended): when the location `p` is the earliest of the input among
those whose projection has the minimum `x` (every location before it has a
larger `x`, none after it a smaller one) and `q` is the latest of the input
among those whose projection has the maximum `x` (no location before it has a
larger `x`, every location after it a smaller one), the estimate is the
distance between the projections of `p` and `q`: of several points that share
the minimum the first of the stably sorted sequence is used, of several that
share the maximum the last. -/
theorem maxDist_tie_break (M : JsMath α) (l pre1 post1 pre2 post2 : List (GeoPoint α))
    (p q : GeoPoint α) (h1 : l = pre1 ++ p :: post1) (h2 : l = pre2 ++ q :: post2)
    (hpre1 : ∀ c ∈ pre1,
      (latLngToCartesian M p.lat p.lng).x < (latLngToCartesian M c.lat c.lng).x)
    (hpost1 : ∀ c ∈ post1,
      (latLngToCartesian M p.lat p.lng).x ≤ (latLngToCartesian M c.lat c.lng).x)
    (hpre2 : ∀ c ∈ pre2,
      (latLngToCartesian M c.lat c.lng).x ≤ (latLngToCartesian M q.lat q.lng).x)
    (hpost2 : ∀ c ∈ post2,
      (latLngToCartesian M c.lat c.lng).x < (latLngToCartesian M q.lat q.lng).x) :
    maxDist M l =
      some (calculateDistance M (latLngToCartesian M p.lat p.lng)
        (latLngToCartesian M q.lat q.lng)) := by
  have hh : (sortByX (project M l)).head? = some (latLngToCartesian M p.lat p.lng) := by
    rw [h1]
    simp only [project, List.map_append, List.map_cons]
    apply sortByX_head
    · intro c hc
      obtain ⟨g, hg, rfl⟩ := List.mem_map.mp hc
      exact hpre1 g hg
    · intro c hc
      obtain ⟨g, hg, rfl⟩ := List.mem_map.mp hc
      exact hpost1 g hg
  have hl : (sortByX (project M l)).getLast? = some (latLngToCartesian M q.lat q.lng) := by
    rw [h2]
    simp only [project, List.map_append, List.map_cons]
    apply sortByX_getLast
    · intro c hc
      obtain ⟨g, hg, rfl⟩ := List.mem_map.mp hc
      exact hpre2 g hg
    · intro c hc
      obtain ⟨g, hg, rfl⟩ := List.mem_map.mp hc
      exact hpost2 g hg
  rw [maxDist_eq, hh, hl]

theorem maxDist_tie_break_witness :
    maxDist (JsMath.mk Real.pi Real.cos Real.sin Real.sqrt) tieAtMax =
      some (calculateDistance (JsMath.mk Real.pi Real.cos Real.sin Real.sqrt)
        (latLngToCartesian (JsMath.mk Real.pi Real.cos Real.sin Real.sqrt) 0 90)
        (latLngToCartesian (JsMath.mk Real.pi Real.cos Real.sin Real.sqrt) 0 (-60))) := by
  refine maxDist_tie_break (JsMath.mk Real.pi Real.cos Real.sin Real.sqrt) tieAtMax []
    [({ lat := 0, lng := 60 } : GeoPoint ℝ), { lat := 0, lng := -60 }]
    [({ lat := 0, lng := 90 } : GeoPoint ℝ), { lat := 0, lng := 60 }] []
    ({ lat := 0, lng := 90 } : GeoPoint ℝ) ({ lat := 0, lng := -60 } : GeoPoint ℝ)
    rfl rfl ?_ ?_ ?_ ?_
  · intro c hc
    simp at hc
  · intro c hc
    simp only [List.mem_cons, List.mem_singleton, List.not_mem_nil, or_false] at hc
    rcases hc with rfl | rfl
    · rw [project_equator_east, project_sixty_east]
      norm_num
    · rw [project_equator_east, project_sixty_west]
      norm_num
  · intro c hc
    simp only [List.mem_cons, List.mem_singleton, List.not_mem_nil, or_false] at hc
    rcases hc with rfl | rfl
    · rw [project_equator_east, project_sixty_west]
      norm_num
    · rw [project_sixty_east, project_sixty_west]
  · intro c hc
    simp at hc

/-- A create request from a known user with the four fields present throws
as soon as the name or a description is not a string. -/
theorem handler_throws_of_not_text (M : JsMath α) (E : Env α) (req : Request)
    (store : Store α) (user : User) (h : CreateBy E req user) (hp : AllPresent req.body)
    (hno : ¬ ∃ name short long, TextFields req.body name short long) :
    handler M E req store = (Outcome.throws, store) := by
  rw [handler_create M E req store user h]
  rcases handlerCreate_text_or_throws M E user req.body store hp with ht | ht
  · exact absurd ht hno
  · exact ht

/-- C1 (what the code does): the request with the name `ab`, shorter than
`MIN_NAME_LENGTH`, and the short description `7` passes check 1 (all four
fields are truthy) and fails check 2, yet it is not answered InvalidName:
`description_short.trim()` in line 55 throws before line 59 is reached. And
for every policy and parser, the request with the name `5` passes check 1,
fails the test `typeof name !== 'string'` of check 2, and throws in line 54. -/
theorem first_failing_check_lost_to_trim :
    (AllPresent (exampleCreate (.str (js "ab")) (.arr []) (.num 7)
        (.str (js "long text"))).body ∧
      ¬ NameInRange exampleConst (js "ab") ∧
      handler (JsMath.mk Real.pi Real.cos Real.sin Real.sqrt)
        (exampleEnv exampleConst (some (equator 2)))
        (exampleCreate (.str (js "ab")) (.arr []) (.num 7) (.str (js "long text")))
        [] = (Outcome.throws, []) ∧
      (Outcome.throws : Outcome ℝ) ≠ InvalidName exampleConst) ∧
    (∀ (c : MapConst) (parsed : Option (List (GeoPoint ℝ))),
      AllPresent (exampleCreate (.num 5) (.arr []) (.str (js "short"))
        (.str (js "long text"))).body ∧
      handler (JsMath.mk Real.pi Real.cos Real.sin Real.sqrt) (exampleEnv c parsed)
        (exampleCreate (.num 5) (.arr []) (.str (js "short")) (.str (js "long text")))
        [] = (Outcome.throws, []) ∧
      (Outcome.throws : Outcome ℝ) ≠ InvalidName c) := by
  refine ⟨⟨by decide, by decide, ?_, ?_⟩, fun c parsed => ⟨by decide, ?_, ?_⟩⟩
  · exact handler_throws_of_not_text _ _ _ [] exampleUser (by exact ⟨rfl, rfl, rfl, rfl⟩)
      (by decide) (fun ⟨_, _, _, _, hs, _⟩ => JsVal.noConfusion hs)
  · intro he
    exact Outcome.noConfusion he
  · exact handler_throws_of_not_text _ _ _ [] exampleUser (by exact ⟨rfl, rfl, rfl, rfl⟩)
      (by decide) (fun ⟨_, _, _, hn, _, _⟩ => JsVal.noConfusion hn)
  · intro he
    exact Outcome.noConfusion he

/-- C4 (counterexample): lines 92-99 on the one location `(0, 0)` produce the
value `0` and do not fail; and with a policy that allows maps of one
location, the request whose parsed list is that location passes every check,
reaches the estimation step and is answered 200 with `maxDist = 0`. -/
theorem one_location_reaches_estimate :
    maxDist (JsMath.mk Real.pi Real.cos Real.sin Real.sqrt) (equator 1) = some 0 ∧
    (equator 1 : List (GeoPoint ℝ)).length = 1 ∧
    handler (JsMath.mk Real.pi Real.cos Real.sin Real.sqrt)
        (exampleEnv onePointConst (some (equator 1)))
        (exampleCreate (.str (js "abc")) (.arr []) (.str (js "short")) (.str (js "long text")))
        [] =
      (Outcome.json 200 "Map created" (some (exampleDoc (equator 1) 0)),
        [exampleDoc (equator 1) 0]) := by
  refine ⟨maxDist_equator_one, by decide, ?_⟩
  rw [handler_success _ _ _ [] exampleUser (js "abc") (js "short") (js "long text")
    (equator 1) 0 (by exact ⟨rfl, rfl, rfl, rfl⟩)
    (by exact ⟨by decide, ⟨rfl, rfl, rfl⟩, by decide, by decide, by decide, by decide⟩)
    (by decide) rfl (by decide) (by decide) maxDist_equator_one]
  rfl

/-- C4 (amended): the code has no failure InsufficientPoints. For a create
request from a known user that passes checks 1 to 7: a parsed list shorter
than `MIN_LOCATIONS` does not reach the estimation step, it is answered
InsufficientLocations; a parsed list of one point that passes the count
checks (`MIN_LOCATIONS <= 1 <= MAX_LOCATIONS`) is answered 200 and stored
with `maxDist = 0`, the distance of the projected point to itself over the
reals; an empty parsed list that passes the count checks
(`MIN_LOCATIONS = 0`) makes the handler throw, the store as it was. On
lines 92-99 alone: one point gives `0`, no point throws. -/
theorem short_list_at_estimate (E : Env ℝ) (req : Request) (store : Store ℝ) (user : User)
    (name short long : JsString) (locationsData : List (GeoPoint ℝ))
    (h : CreateBy E req user) (hp : PassesTextChecks E.mapConst req.body name short long)
    (hslug : slugCollides E (E.generateSlug (trim name)) = false)
    (hparse : E.parseMapData req.body.data = some locationsData) :
    (locationsData.length < E.mapConst.MIN_LOCATIONS →
      handler (JsMath.mk Real.pi Real.cos Real.sin Real.sqrt) E req store =
        (InsufficientLocations E.mapConst locationsData.length, store)) ∧
    (locationsData.length = 1 → E.mapConst.MIN_LOCATIONS ≤ 1 →
      1 ≤ E.mapConst.MAX_LOCATIONS →
      handler (JsMath.mk Real.pi Real.cos Real.sin Real.sqrt) E req store =
        (Outcome.json 200 "Map created" (some
            { slug := E.generateSlug (trim name)
              name := trim name
              created_by := user._id
              data := locationsData
              description_short := trim short
              description_long := trim long
              maxDist := 0
              _id := E.newId store }),
          store ++ [{ slug := E.generateSlug (trim name)
                      name := trim name
                      created_by := user._id
                      data := locationsData
                      description_short := trim short
                      description_long := trim long
                      maxDist := 0
                      _id := E.newId store }])) ∧
    (locationsData.length = 0 → E.mapConst.MIN_LOCATIONS = 0 →
      handler (JsMath.mk Real.pi Real.cos Real.sin Real.sqrt) E req store =
        (Outcome.throws, store)) ∧
    (∀ p : GeoPoint ℝ,
      maxDist (JsMath.mk Real.pi Real.cos Real.sin Real.sqrt) [p] = some 0) ∧
    maxDist (JsMath.mk Real.pi Real.cos Real.sin Real.sqrt) ([] : List (GeoPoint ℝ)) =
      none := by
  have hone : ∀ p : GeoPoint ℝ,
      maxDist (JsMath.mk Real.pi Real.cos Real.sin Real.sqrt) [p] = some 0 := by
    intro p
    rw [maxDist_singleton, calculateDistance_self]
  refine ⟨?_, ?_, ?_, hone, rfl⟩
  · intro hlt
    rw [handler_checked _ E req store user name short long h hp]
    simp only [hslug, hparse, Bool.false_eq_true, if_false]
    rw [if_pos hlt]
  · intro hlen hmin hmax
    obtain ⟨p, hp1⟩ := List.length_eq_one.mp hlen
    exact handler_success _ E req store user name short long locationsData 0 h hp hslug
      hparse (by omega) (by omega) (by rw [hp1]; exact hone p)
  · intro hlen hmin
    have hnil : locationsData = [] := List.length_eq_zero.mp hlen
    rw [handler_checked _ E req store user name short long h hp]
    simp only [hslug, hparse, Bool.false_eq_true, if_false]
    rw [if_neg (by omega), if_neg (by omega), hnil, maxDist_nil]

theorem short_list_at_estimate_witness :
    handler (JsMath.mk Real.pi Real.cos Real.sin Real.sqrt)
        (exampleEnv exampleConst (some (equator 1)))
        (exampleCreate (.str (js "abc")) (.arr []) (.str (js "short")) (.str (js "long text")))
        [] = (InsufficientLocations exampleConst 1, []) ∧
    handler (JsMath.mk Real.pi Real.cos Real.sin Real.sqrt)
        (exampleEnv onePointConst (some (equator 1)))
        (exampleCreate (.str (js "abc")) (.arr []) (.str (js "short")) (.str (js "long text")))
        [] =
      (Outcome.json 200 "Map created" (some (exampleDoc (equator 1) 0)),
        [] ++ [exampleDoc (equator 1) 0]) ∧
    handler (JsMath.mk Real.pi Real.cos Real.sin Real.sqrt)
        (exampleEnv emptyMapConst (some []))
        (exampleCreate (.str (js "abc")) (.arr []) (.str (js "short")) (.str (js "long text")))
        [] = (Outcome.throws, []) :=
  ⟨(short_list_at_estimate (exampleEnv exampleConst (some (equator 1)))
      (exampleCreate (.str (js "abc")) (.arr []) (.str (js "short")) (.str (js "long text")))
      [] exampleUser (js "abc") (js "short") (js "long text") (equator 1)
      (by exact ⟨rfl, rfl, rfl, rfl⟩)
      (by exact ⟨by decide, ⟨rfl, rfl, rfl⟩, by decide, by decide, by decide, by decide⟩)
      (by decide) rfl).1 (by decide),
   (short_list_at_estimate (exampleEnv onePointConst (some (equator 1)))
      (exampleCreate (.str (js "abc")) (.arr []) (.str (js "short")) (.str (js "long text")))
      [] exampleUser (js "abc") (js "short") (js "long text") (equator 1)
      (by exact ⟨rfl, rfl, rfl, rfl⟩)
      (by exact ⟨by decide, ⟨rfl, rfl, rfl⟩, by decide, by decide, by decide, by decide⟩)
      (by decide) rfl).2.1 (by decide) (by decide) (by decide),
   (short_list_at_estimate (exampleEnv emptyMapConst (some []))
      (exampleCreate (.str (js "abc")) (.arr []) (.str (js "short")) (.str (js "long text")))
      [] exampleUser (js "abc") (js "short") (js "long text") []
      (by exact ⟨rfl, rfl, rfl, rfl⟩)
      (by exact ⟨by decide, ⟨rfl, rfl, rfl⟩, by decide, by decide, by decide, by decide⟩)
      (by decide) rfl).2.2.1 rfl rfl⟩

/-- C9 (counterexample): with `MIN_LOCATIONS = 0` a request that passes checks
1 to 7 and whose parser yields the empty list is not answered
InsufficientLocations: an empty array is truthy and `0 < 0` is false, so
line 85 lets it through, and the handler throws in line 99. -/
theorem empty_parse_not_insufficient :
    emptyMapConst.MIN_LOCATIONS = 0 ∧
    handler (JsMath.mk Real.pi Real.cos Real.sin Real.sqrt)
        (exampleEnv emptyMapConst (some []))
        (exampleCreate (.str (js "abc")) (.arr []) (.str (js "short")) (.str (js "long text")))
        [] = (Outcome.throws, []) ∧
    ∀ got : Nat, (Outcome.throws : Outcome ℝ) ≠ InsufficientLocations emptyMapConst got := by
  refine ⟨rfl, ?_, ?_⟩
  · rw [handler_checked _ _ _ [] exampleUser (js "abc") (js "short") (js "long text")
      (by exact ⟨rfl, rfl, rfl, rfl⟩)
      (by exact ⟨by decide, ⟨rfl, rfl, rfl⟩, by decide, by decide, by decide, by decide⟩)]
    rw [if_neg (by decide)]
    rfl
  · intro got he
    exact Outcome.noConfusion he

end WorldGuessr
